import Mathlib

/-!
Verification of the ottochain-watchdog core: a shallow embedding of the
health-condition detectors (forked cluster, snapshot stall, unhealthy nodes),
the restart orchestrator (`executeRestart`) and the health reader, together
with theorems settling the specification claims about them.

Conventions of the embedding:
* machine timestamps are `Int` milliseconds; elapsed-seconds/minutes values
  computed by JavaScript float division are modelled with `Rat`;
* JavaScript `Record<string, number>` objects are modelled by their key list
  in JavaScript property order (array-index-like keys first in ascending
  numeric order, then the remaining keys in insertion order) paired with the
  final counts, which is what `Object.entries` observes;
* fallible remote procedures are oracles of type `Except String Unit`;
* mutable state (stall tracker, restart history) is passed explicitly.
-/

namespace Watchdog

/-- The four cluster layers (`gl0` global, `ml0` metagraph L0, `cl1`, `dl1`). -/
inductive Layer
  | gl0
  | ml0
  | cl1
  | dl1
deriving DecidableEq, Repr

/-- Restart scopes of a `DetectionResult` ('none' | 'individual-node' |
'full-layer' | 'full-metagraph'). -/
inductive RestartScope
  | none
  | individualNode
  | fullLayer
  | fullMetagraph
deriving DecidableEq, Repr

/-- Per (node, layer) observation inside a `HealthSnapshot`
(src/services/health-reader.ts `LayerHealth`). -/
structure LayerHealth where
  layer : Layer
  state : String
  ordinal : Int
  reachable : Bool
  clusterSize : Nat
  clusterHash : Option String
deriving DecidableEq, Repr

/-- Health data for a single node (health-reader.ts `NodeHealthData`). -/
structure NodeHealthData where
  ip : String
  name : String
  layers : List LayerHealth
deriving DecidableEq, Repr

/-- Snapshot source tag ('redis' | 'direct'). -/
inductive Source
  | redis
  | direct
deriving DecidableEq, Repr

/-- Complete health snapshot (health-reader.ts `HealthSnapshot`). -/
structure HealthSnapshot where
  timestamp : Int
  nodes : List NodeHealthData
  stale : Bool
  source : Source
deriving DecidableEq, Repr

/-- One configured node (config.ts `NodeConfig`). -/
structure NodeConfig where
  name : String
  ip : String
deriving DecidableEq, Repr

/-- The configuration fields consumed by the core (config.ts `Config`).
`snapshotStallMinutes` and `healthDataStaleSeconds` are JavaScript numbers
used in float comparisons, hence `Rat`. -/
structure Config where
  nodes : List NodeConfig
  snapshotStallMinutes : Rat
  restartCooldownMinutes : Int
  maxRestartsPerHour : Int
  healthDataStaleSeconds : Rat
deriving DecidableEq, Repr

/-- Result of one condition detector (types.ts `DetectionResult`). -/
structure DetectionResult where
  detected : Bool
  condition : String
  details : String
  restartScope : RestartScope
  affectedNodes : Option (List String) := Option.none
  affectedLayers : Option (List Layer) := Option.none
deriving DecidableEq, Repr

/-- One restart-history record (types.ts `RestartEvent`); the ISO timestamp
string is modelled by its epoch milliseconds. -/
structure RestartEvent where
  timestamp : Int
  scope : RestartScope
  condition : String
  layers : List Layer
  nodes : List String
  success : Bool
  error : Option String := Option.none
deriving DecidableEq, Repr

/-! ### JavaScript helpers

`jsTruthy` models truthiness of an optional string (`undefined` and the
empty string are falsy).  `jsDedup` models first-occurrence deduplication
(`new Set`/object-key insertion).  `isArrayIndexKey` and `jsObjectKeys`
model the property order of a JavaScript object: canonical numeric strings
below 2^32 - 1 come first in ascending numeric order, then the remaining
keys in insertion order. -/

/-- Truthiness of an optional string field (`!p.error` in the source). -/
def jsTruthy : Option String → Bool
  | Option.none => false
  | some s => s ≠ ""

/-- First-occurrence deduplication, with the set of keys already emitted. -/
def jsDedupAux : List String → List String → List String
  | [], _ => []
  | x :: xs, seen =>
    if x ∈ seen then jsDedupAux xs seen else x :: jsDedupAux xs (x :: seen)

/-- First-occurrence deduplication of a string list. -/
def jsDedup (l : List String) : List String := jsDedupAux l []

/-- Decimal value of a digit character. -/
def charDigit (c : Char) : Option Nat :=
  if '0' ≤ c && c ≤ '9' then some (c.toNat - '0'.toNat) else Option.none

/-- Parse a run of decimal digits. -/
def parseNatAux : List Char → Nat → Option Nat
  | [], acc => some acc
  | c :: cs, acc =>
    match charDigit c with
    | some d => parseNatAux cs (acc * 10 + d)
    | Option.none => Option.none

/-- Parse a non-empty all-digit string. -/
def parseNatKey (s : String) : Option Nat :=
  match s.data with
  | [] => Option.none
  | cs => parseNatAux cs 0

/-- Whether a string is a canonical array-index property key: a canonical
decimal numeral below 2^32 - 1. -/
def isArrayIndexKey (s : String) : Bool :=
  match parseNatKey s with
  | some k => (s = "0" || s.data.head? ≠ some '0') && decide (k < 4294967295)
  | Option.none => false

/-- Numeric value used to order array-index keys. -/
def keyVal (s : String) : Nat := (parseNatKey s).getD 0

/-- Insert a key into a list sorted ascending by numeric value. -/
def insertByVal (s : String) : List String → List String
  | [] => [s]
  | x :: xs => if keyVal s < keyVal x then s :: x :: xs else x :: insertByVal s xs

/-- Sort array-index keys ascending by numeric value. -/
def sortIndexKeys (l : List String) : List String := l.foldr insertByVal []

/-- JavaScript own-property key order for a list of keys in insertion order. -/
def jsObjectKeys (keys : List String) : List String :=
  sortIndexKeys (keys.filter (fun k => isArrayIndexKey k))
    ++ keys.filter (fun k => !isArrayIndexKey k)

/-! ### Fork detection (src/conditions/forked-cluster.ts, snapshot variant) -/

/-- POV result from a single node (forked-cluster.ts `NodePOV`). -/
structure NodePOV where
  ip : String
  hash : String
  reachable : Bool
  error : Option String := Option.none
deriving DecidableEq, Repr

/-- Return value of `findMajority`. -/
structure MajorityResult where
  majorityHash : String
  majorityNodes : List String
  minorityNodes : List String
  unreachable : List String
deriving DecidableEq, Repr

/-- Voting nodes: `povs.filter(p => p.reachable && !p.error)`. -/
def votingPovs (povs : List NodePOV) : List NodePOV :=
  povs.filter (fun p => p.reachable && !jsTruthy p.error)

/-- Ips of `povs.filter(p => !p.reachable || p.error)`. -/
def unreachableIps (povs : List NodePOV) : List String :=
  (povs.filter (fun p => !p.reachable || jsTruthy p.error)).map (fun p => p.ip)

/-- Frequency of one hash among a POV list (final value of `freq[p.hash]`). -/
def countHash (l : List NodePOV) (h : String) : Nat :=
  (l.filter (fun p => p.hash = h)).length

/-- The frequency table `Object.entries(freq)` in JavaScript key order. -/
def freqEntries (voting : List NodePOV) : List (String × Nat) :=
  (jsObjectKeys (jsDedup (voting.map (fun p => p.hash)))).map
    (fun h => (h, countHash voting h))

/-- First entry with maximal count, i.e. `entries.sort((a,b) => b[1]-a[1])[0]`
for a stable sort. -/
def firstMaxEntry : List (String × Nat) → Option (String × Nat)
  | [] => Option.none
  | e :: es =>
    match firstMaxEntry es with
    | Option.none => some e
    | some b => some (if b.2 > e.2 then b else e)

/-- The hash sorted first: `Object.entries(freq).sort((a,b) => b[1]-a[1])[0][0]`. -/
def majorityHashOf (voting : List NodePOV) : String :=
  match firstMaxEntry (freqEntries voting) with
  | some e => e.1
  | Option.none => ""

/-- Find the majority partition from a POV list (forked-cluster.ts
`findMajority`, lines 181-207). -/
def findMajority (povs : List NodePOV) : MajorityResult :=
  let voting := votingPovs povs
  let unreach := unreachableIps povs
  if voting.isEmpty then
    { majorityHash := "", majorityNodes := [], minorityNodes := [], unreachable := unreach }
  else
    { majorityHash := majorityHashOf voting
      majorityNodes :=
        (voting.filter (fun p => p.hash = majorityHashOf voting)).map (fun p => p.ip)
      minorityNodes :=
        (voting.filter (fun p => p.hash ≠ majorityHashOf voting)).map (fun p => p.ip)
      unreachable := unreach }

/-- Result of `checkLayerForkFromSnapshot`. -/
structure LayerForkResult where
  forked : Bool
  minorityNodes : List String
  unreachable : List String
deriving DecidableEq, Repr

/-- Build the POV of one node for one layer (body of the loop in
`checkLayerForkFromSnapshot`). -/
def povOfNode (layer : Layer) (node : NodeHealthData) : NodePOV :=
  match node.layers.find? (fun l => l.layer = layer) with
  | Option.none =>
    { ip := node.ip, hash := "", reachable := false, error := some "unreachable" }
  | some lh =>
    if !lh.reachable then
      { ip := node.ip, hash := "", reachable := false, error := some "unreachable" }
    else if jsTruthy lh.clusterHash then
      { ip := node.ip, hash := lh.clusterHash.getD "", reachable := true }
    else
      { ip := node.ip, hash := "size-" ++ toString lh.clusterSize, reachable := true }

/-- Check a single layer for a fork using snapshot data
(forked-cluster.ts `checkLayerForkFromSnapshot`, lines 212-243). -/
def checkLayerForkFromSnapshot (snapshot : HealthSnapshot) (layer : Layer) :
    LayerForkResult :=
  let povs := snapshot.nodes.map (povOfNode layer)
  let m := findMajority povs
  { forked := !m.minorityNodes.isEmpty
    minorityNodes := m.minorityNodes
    unreachable := m.unreachable }

/-- Detection result produced for the first forked layer. -/
def forkResultFor (cfg : Config) (layer : Layer) (r : LayerForkResult) :
    DetectionResult :=
  { detected := true
    condition := "ForkedCluster"
    details := "forked"
    restartScope :=
      if cfg.nodes.length - 1 ≤ r.minorityNodes.length then RestartScope.fullLayer
      else RestartScope.individualNode
    affectedNodes := some r.minorityNodes
    affectedLayers := some [layer] }

/-- Loop of `detectForkedClusterFromSnapshot` over the metagraph layers. -/
def goForkLayers (cfg : Config) (snapshot : HealthSnapshot) :
    List Layer → DetectionResult
  | [] =>
    { detected := false, condition := "ForkedCluster", details := ""
      restartScope := RestartScope.none }
  | layer :: rest =>
    let r := checkLayerForkFromSnapshot snapshot layer
    if r.forked then forkResultFor cfg layer r
    else goForkLayers cfg snapshot rest

/-- Detect forked clusters from snapshot data
(forked-cluster.ts `detectForkedClusterFromSnapshot`, lines 250-275). -/
def detectForkedClusterFromSnapshot (cfg : Config) (snapshot : HealthSnapshot) :
    DetectionResult :=
  goForkLayers cfg snapshot [Layer.ml0, Layer.cl1, Layer.dl1]

/-! ### Stall tracker (snapshots-stopped.ts `StallTracker`) -/

/-- Value stored per (node, layer) key (`OrdinalState`). -/
structure OrdinalState where
  ordinal : Int
  timestamp : Int
deriving DecidableEq, Repr

/-- The tracker's map, as an association list with unique keys in insertion
order (JavaScript `Map`). -/
abbrev TrackerState := List (String × OrdinalState)

/-- The `nodeId:layer` map key. -/
def trackerKey (nodeId layer : String) : String := nodeId ++ ":" ++ layer

/-- Lookup, i.e. `Map.get`. -/
def lookupState (st : TrackerState) (k : String) : Option OrdinalState :=
  (st.find? (fun e => e.1 = k)).map (fun e => e.2)

/-- Insertion `Map.set` — replaces an existing key in place, else appends. -/
def setState (st : TrackerState) (k : String) (v : OrdinalState) : TrackerState :=
  match st with
  | [] => [(k, v)]
  | e :: es => if e.1 = k then (k, v) :: es else e :: setState es k v

/-- Update step `StallTracker.update` (snapshots-stopped.ts lines 40-50): records the
ordinal and timestamp when the ordinal differs from the stored one (or the
key is new) and returns whether the ordinal advanced. -/
def trackerUpdate (st : TrackerState) (nodeId layer : String) (ordinal : Int)
    (timestamp : Int) : Bool × TrackerState :=
  let k := trackerKey nodeId layer
  match lookupState st k with
  | Option.none => (true, setState st k ⟨ordinal, timestamp⟩)
  | some prev =>
    if ordinal ≠ prev.ordinal then
      (ordinal > prev.ordinal, setState st k ⟨ordinal, timestamp⟩)
    else
      (false, st)

/-- Elapsed time `StallTracker.staleSecs`: seconds since the last ordinal change
(the float division `(now - s.timestamp) / 1000` over exact rationals). -/
def staleSecs (st : TrackerState) (nodeId layer : String) (now : Int) :
    Option Rat :=
  (lookupState st (trackerKey nodeId layer)).map
    (fun s => Rat.divInt (now - s.timestamp) 1000)

/-- Exact division of a rational by 60 (`staleSecs / 60`). -/
def ratDiv60 (q : Rat) : Rat := Rat.divInt q.num (q.den * 60)

/-- Last recorded ordinal, i.e. `StallTracker.lastOrdinal`. -/
def lastOrdinal (st : TrackerState) (nodeId layer : String) : Option Int :=
  (lookupState st (trackerKey nodeId layer)).map (fun s => s.ordinal)

/-! ### Snapshot stall detector (snapshots-stopped.ts, snapshot variant) -/

/-- Loop selecting the first node whose first reachable ml0 layer entry has a
non-negative ordinal (`detectSnapshotsStoppedFromSnapshot` lines 84-91). -/
def firstMl0Selection : List NodeHealthData → Option (String × Int)
  | [] => Option.none
  | node :: rest =>
    match node.layers.find? (fun l => l.layer = Layer.ml0 && l.reachable) with
    | some ml0 =>
      if ml0.ordinal ≥ 0 then some (node.ip, ml0.ordinal)
      else firstMl0Selection rest
    | Option.none => firstMl0Selection rest

/-- A non-detection result for the stall condition. -/
def stallNotDetected (details : String) : DetectionResult :=
  { detected := false, condition := "SnapshotsStopped", details := details
    restartScope := RestartScope.none }

/-- Detect a snapshot stall from snapshot data, threading the tracker state
(snapshots-stopped.ts `detectSnapshotsStoppedFromSnapshot`, lines 73-128).
`now` stands for the `Date.now()` reading of the current cycle. -/
def detectSnapshotsStoppedFromSnapshot (cfg : Config) (snapshot : HealthSnapshot)
    (tracker : TrackerState) (now : Int) : DetectionResult × TrackerState :=
  match firstMl0Selection snapshot.nodes with
  | Option.none => (stallNotDetected "ML0 unreachable", tracker)
  | some (reachableNode, currentOrdinal) =>
    let prevOrdinal := lastOrdinal tracker reachableNode "ml0"
    let upd := trackerUpdate tracker reachableNode "ml0" currentOrdinal now
    if upd.1 || prevOrdinal.isNone then
      (stallNotDetected "", upd.2)
    else
      let staleS := (staleSecs upd.2 reachableNode "ml0" now).getD 0
      let staleMinutes := ratDiv60 staleS
      if cfg.snapshotStallMinutes ≤ staleMinutes then
        ({ detected := true
           condition := "SnapshotsStopped"
           details := "ML0 snapshots stalled at ordinal " ++ toString currentOrdinal
           restartScope := RestartScope.fullMetagraph
           affectedLayers := some [Layer.ml0, Layer.cl1, Layer.dl1]
           affectedNodes := some (cfg.nodes.map (fun n => n.ip)) }, upd.2)
      else
        (stallNotDetected "", upd.2)

/-! ### Unhealthy-nodes detector (src/conditions/unhealthy-nodes.ts) -/

/-- The known-bad node states (`STUCK_STATE_SET`). -/
def stuckStateSet : List String :=
  ["WaitingForDownload", "Leaving", "Offline", "DownloadInProgress", "Unreachable"]

/-- Ips of nodes unhealthy on one layer (`detectUnhealthyNodesFromSnapshot`,
inner loop): a node is unhealthy when its layer entry is missing, not
reachable, or in a stuck state. -/
def unhealthyIpsForLayer (snapshot : HealthSnapshot) (layer : Layer) : List String :=
  snapshot.nodes.filterMap (fun node =>
    match node.layers.find? (fun l => l.layer = layer) with
    | Option.none => some node.ip
    | some lh =>
      if !lh.reachable || stuckStateSet.contains lh.state then some node.ip
      else Option.none)

/-- The `unhealthyByLayer` record: layers with a non-empty unhealthy list, in
layer iteration order. -/
def unhealthyByLayer (snapshot : HealthSnapshot) : List (Layer × List String) :=
  [Layer.gl0, Layer.ml0, Layer.cl1, Layer.dl1].filterMap (fun layer =>
    let u := unhealthyIpsForLayer snapshot layer
    if u.isEmpty then Option.none else some (layer, u))

/-- Test `unhealthyByLayer[layer]?.length === allNodesCount` — false when the key
is absent. -/
def layerFullyDown (byLayer : List (Layer × List String)) (layer : Layer)
    (allNodesCount : Nat) : Bool :=
  match byLayer.find? (fun e => e.1 = layer) with
  | some e => e.2.length = allNodesCount
  | Option.none => false

/-- Detect unhealthy nodes from snapshot data
(unhealthy-nodes.ts `detectUnhealthyNodesFromSnapshot`, lines 23-113). -/
def detectUnhealthyNodesFromSnapshot (cfg : Config) (snapshot : HealthSnapshot) :
    DetectionResult :=
  let byLayer := unhealthyByLayer snapshot
  if byLayer.isEmpty then
    { detected := false, condition := "UnhealthyNodes", details := ""
      restartScope := RestartScope.none }
  else
    let allNodesCount := cfg.nodes.length
    if layerFullyDown byLayer Layer.gl0 allNodesCount then
      { detected := true, condition := "UnhealthyNodes"
        details := "GL0 fully down"
        restartScope := RestartScope.fullMetagraph
        affectedLayers := some [Layer.gl0, Layer.ml0, Layer.cl1, Layer.dl1]
        affectedNodes := some (cfg.nodes.map (fun n => n.ip)) }
    else if layerFullyDown byLayer Layer.ml0 allNodesCount then
      { detected := true, condition := "UnhealthyNodes"
        details := "ML0 fully down"
        restartScope := RestartScope.fullMetagraph
        affectedLayers := some [Layer.ml0, Layer.cl1, Layer.dl1]
        affectedNodes := some (cfg.nodes.map (fun n => n.ip)) }
    else if layerFullyDown byLayer Layer.cl1 allNodesCount then
      { detected := true, condition := "UnhealthyNodes"
        details := "CL1 fully down"
        restartScope := RestartScope.fullLayer
        affectedLayers := some [Layer.cl1]
        affectedNodes := some (cfg.nodes.map (fun n => n.ip)) }
    else if layerFullyDown byLayer Layer.dl1 allNodesCount then
      { detected := true, condition := "UnhealthyNodes"
        details := "DL1 fully down"
        restartScope := RestartScope.fullLayer
        affectedLayers := some [Layer.dl1]
        affectedNodes := some (cfg.nodes.map (fun n => n.ip)) }
    else
      { detected := true, condition := "UnhealthyNodes"
        details := "Individual unhealthy nodes"
        restartScope := RestartScope.individualNode
        affectedLayers := some (byLayer.map (fun e => e.1))
        affectedNodes := some (jsDedup (byLayer.map (fun e => e.2)).flatten) }

/-! ### Restart orchestrator (src/services/ssh.ts `executeRestart`)

The restart procedures themselves (`restartIndividualNodes`,
`restartFullLayer`, `restartFullMetagraph`) are remote-command sequences; the
orchestrator only observes whether the chosen procedure completed or threw, so
they are modelled by an oracle `proc : Except String Unit` giving the outcome
of the `try` block.  `actedRemotely` records whether the orchestrator reached
the procedure at all (any remote action). -/

/-- Outcome of one `executeRestart` call. -/
structure ExecOutcome where
  returned : Bool
  history : List RestartEvent
  actedRemotely : Bool
deriving DecidableEq, Repr

/-- Success flag a procedure outcome yields. -/
def procSuccess : Except String Unit → Bool
  | Except.ok _ => true
  | Except.error _ => false

/-- Error description a procedure outcome yields. -/
def procError : Except String Unit → Option String
  | Except.ok _ => Option.none
  | Except.error e => some e

/-- Count `recentRestartCount(60)`: history entries with timestamps strictly inside
the trailing 60 minutes. -/
def recentRestartCount (history : List RestartEvent) (now : Int) : Nat :=
  (history.filter (fun r => now - 60 * 60000 < r.timestamp)).length

/-- The event appended for one attempt (ssh.ts lines 360-391). -/
def mkRestartEvent (result : DetectionResult) (now : Int)
    (proc : Except String Unit) : RestartEvent :=
  { timestamp := now
    scope := result.restartScope
    condition := result.condition
    layers := result.affectedLayers.getD []
    nodes := result.affectedNodes.getD []
    success := procSuccess proc
    error := procError proc }

/-- Execute a restart based on a detection result (ssh.ts `executeRestart`,
lines 333-393): refuse without touching the history when the rate limit or
cooldown blocks the attempt, otherwise run the scope's procedure and append
exactly one history entry whatever its outcome.  The function is total: every
failure of the procedure is caught and recorded, never re-thrown. -/
def executeRestart (cfg : Config) (result : DetectionResult)
    (history : List RestartEvent) (now : Int) (proc : Except String Unit) :
    ExecOutcome :=
  if !result.detected || result.restartScope = RestartScope.none then
    { returned := false, history := history, actedRemotely := false }
  else if cfg.maxRestartsPerHour ≤ (recentRestartCount history now : Int) then
    { returned := false, history := history, actedRemotely := false }
  else
    match history.getLast? with
    | some lastRestart =>
      if now - lastRestart.timestamp < cfg.restartCooldownMinutes * 60000 then
        { returned := false, history := history, actedRemotely := false }
      else
        { returned := procSuccess proc
          history := history ++ [mkRestartEvent result now proc]
          actedRemotely := true }
    | Option.none =>
      { returned := procSuccess proc
        history := history ++ [mkRestartEvent result now proc]
        actedRemotely := true }

/-! ### Control loop (src/index.ts `runHealthCheck`, lines 31-73)

The loop evaluates the three detectors in order over the snapshot; on a
positive detection it invokes the orchestrator, and returns early only when
the orchestrator reports that a restart was actually performed. -/

/-- Observable outcome of one health-check cycle. -/
structure CycleResult where
  evaluated : List String
  invoked : List String
  restarted : Bool
  history : List RestartEvent
  tracker : TrackerState
deriving DecidableEq, Repr

/-- One health-check cycle over a snapshot: detectors run in the fixed order
fork, stall, unhealthy; each positive detection invokes `executeRestart`; the
cycle returns early iff the restart was performed. -/
def runHealthCheck (cfg : Config) (snapshot : HealthSnapshot)
    (tracker : TrackerState) (history : List RestartEvent) (now : Int)
    (procFork procStall procUnhealthy : Except String Unit) : CycleResult :=
  let r1 := detectForkedClusterFromSnapshot cfg snapshot
  let afterFork : List String × List RestartEvent :=
    if r1.detected then (["ForkedCluster"], (executeRestart cfg r1 history now procFork).history)
    else ([], history)
  if r1.detected && (executeRestart cfg r1 history now procFork).returned then
    { evaluated := ["ForkedCluster"], invoked := ["ForkedCluster"]
      restarted := true, history := afterFork.2, tracker := tracker }
  else
    let stall := detectSnapshotsStoppedFromSnapshot cfg snapshot tracker now
    let r2 := stall.1
    let afterStall : List String × List RestartEvent :=
      if r2.detected then
        (afterFork.1 ++ ["SnapshotsStopped"],
          (executeRestart cfg r2 afterFork.2 now procStall).history)
      else (afterFork.1, afterFork.2)
    if r2.detected && (executeRestart cfg r2 afterFork.2 now procStall).returned then
      { evaluated := ["ForkedCluster", "SnapshotsStopped"]
        invoked := afterStall.1
        restarted := true, history := afterStall.2, tracker := stall.2 }
    else
      let r3 := detectUnhealthyNodesFromSnapshot cfg snapshot
      let afterUnhealthy : List String × List RestartEvent :=
        if r3.detected then
          (afterStall.1 ++ ["UnhealthyNodes"],
            (executeRestart cfg r3 afterStall.2 now procUnhealthy).history)
        else (afterStall.1, afterStall.2)
      { evaluated := ["ForkedCluster", "SnapshotsStopped", "UnhealthyNodes"]
        invoked := afterUnhealthy.1
        restarted := r3.detected &&
          (executeRestart cfg r3 afterStall.2 now procUnhealthy).returned
        history := afterUnhealthy.2
        tracker := stall.2 }

/-! ### Health reader (src/services/health-reader.ts) -/

/-- One layer record of the cached payload (`RedisHealthPayload`). -/
structure RedisLayerHealth where
  layer : Layer
  state : String
  ordinal : Int
  reachable : Bool
  clusterSize : Option Nat
  clusterHash : Option String
deriving DecidableEq, Repr

/-- One node record of the cached payload. -/
structure RedisNodeData where
  ip : String
  name : String
  layers : List RedisLayerHealth
deriving DecidableEq, Repr

/-- The cached payload written by the services monitor. -/
structure RedisPayload where
  timestamp : Int
  nodes : List RedisNodeData
deriving DecidableEq, Repr

/-- What one attempt to read the cache can observe: the backend marked down,
a read error, a missing key, an unparseable payload, or a payload. -/
inductive CacheRead
  | backendDown
  | readFail
  | missing
  | unparseable
  | ok (p : RedisPayload)
deriving DecidableEq, Repr

/-- Payload transformation `transformRedisNodes` (health-reader.ts lines 163-176). -/
def transformRedisNodes (nodes : List RedisNodeData) : List NodeHealthData :=
  nodes.map (fun n =>
    { ip := n.ip, name := n.name
      layers := n.layers.map (fun l =>
        { layer := l.layer, state := l.state, ordinal := l.ordinal
          reachable := l.reachable, clusterSize := l.clusterSize.getD 0
          clusterHash := l.clusterHash }) })

/-- Node status as observed over HTTP (`NodeInfo`, reduced to the fields the
reader consumes). -/
structure NodeInfoLite where
  state : String
  id : String
deriving DecidableEq, Repr

/-- The three direct probes `checkNodeHealth` issues for one (node, layer):
`/node/info` (None on any fetch failure), `/cluster/info` member ids, and the
latest ordinal (-1 on failure). -/
structure DirectProbe where
  info : Option NodeInfoLite
  clusterIds : List String
  ordinal : Int
deriving DecidableEq, Repr

/-- Record `NodeHealth` produced by `checkNodeHealth` (node-api.ts lines 73-92):
a failed `/node/info` fetch yields `reachable = false` and state
"Unreachable" instead of an exception. -/
structure NodeHealth where
  nodeIp : String
  layer : Layer
  reachable : Bool
  state : String
  clusterIds : List String
  ordinal : Int
deriving DecidableEq, Repr

/-- Health check `checkNodeHealth` over a probe outcome. -/
def checkNodeHealth (ip : String) (layer : Layer) (probe : DirectProbe) :
    NodeHealth :=
  { nodeIp := ip
    layer := layer
    reachable := probe.info.isSome
    state := match probe.info with
      | some i => i.state
      | Option.none => "Unreachable"
    clusterIds := probe.clusterIds
    ordinal := probe.ordinal }

/-- Insertion `Map.set` on the `nodeHealthMap`: replace the entry with this ip in
place, else append. -/
def mapSetNode (acc : List NodeHealthData) (nd : NodeHealthData) :
    List NodeHealthData :=
  match acc with
  | [] => [nd]
  | e :: es => if e.ip = nd.ip then nd :: es else e :: mapSetNode es nd

/-- Initialization loop of `pollDirectly`: one empty entry per configured
node. -/
def initNodeMap (nodes : List NodeConfig) : List NodeHealthData :=
  nodes.foldl (fun acc n => mapSetNode acc { ip := n.ip, name := n.name, layers := [] }) []

/-- Push `nodeData.layers.push(...)` for the entry keyed by `h.nodeIp` (absent
keys are skipped, as in the source). -/
def pushLayerHealth (acc : List NodeHealthData) (h : NodeHealth) :
    List NodeHealthData :=
  acc.map (fun nd =>
    if nd.ip = h.nodeIp then
      { nd with layers := nd.layers ++
          [{ layer := h.layer, state := h.state, ordinal := h.ordinal
             reachable := h.reachable, clusterSize := h.clusterIds.length
             clusterHash := Option.none }] }
    else nd)

/-- Fallback `pollDirectly` (health-reader.ts lines 181-219): poll every layer of
every configured node; `probes` gives each probe's outcome. -/
def pollDirectly (cfg : Config) (now : Int) (probes : Layer → String → DirectProbe) :
    HealthSnapshot :=
  let init := initNodeMap cfg.nodes
  let final := [Layer.gl0, Layer.ml0, Layer.cl1, Layer.dl1].foldl
    (fun acc layer =>
      (cfg.nodes.map (fun n => checkNodeHealth n.ip layer (probes layer n.ip))).foldl
        pushLayerHealth acc)
    init
  { timestamp := now, nodes := final, stale := false, source := Source.direct }

/-- Snapshot acquisition `HealthReader.getHealthSnapshot` (health-reader.ts lines 127-158): use the
cached payload only when the read succeeded, the payload parsed, and its
embedded timestamp is younger than the staleness threshold; on every other
outcome degrade to direct polling.  Total by construction — no failure
propagates. -/
def getHealthSnapshot (cfg : Config) (cache : CacheRead) (now : Int)
    (probes : Layer → String → DirectProbe) : HealthSnapshot :=
  match cache with
  | CacheRead.ok p =>
    if Rat.divInt (now - p.timestamp) 1000 < cfg.healthDataStaleSeconds then
      { timestamp := p.timestamp, nodes := transformRedisNodes p.nodes
        stale := false, source := Source.redis }
    else pollDirectly cfg now probes
  | _ => pollDirectly cfg now probes

/-! ### Basic lemmas about the tracker map -/

theorem lookupState_setState (st : TrackerState) (k : String) (v : OrdinalState) :
    lookupState (setState st k v) k = some v := by
  induction st with
  | nil => simp [setState, lookupState, List.find?]
  | cons e es ih =>
    by_cases h : e.1 = k
    · simp [setState, h, lookupState, List.find?]
    · simpa [setState, h, lookupState, List.find?] using ih

/-! ### Shared concrete fixtures used by witnesses and counterexamples -/

/-- A three-node configuration with the documented default thresholds. -/
def cfg3 : Config :=
  { nodes := [⟨"node1", "10.0.0.1"⟩, ⟨"node2", "10.0.0.2"⟩, ⟨"node3", "10.0.0.3"⟩]
    snapshotStallMinutes := 4
    restartCooldownMinutes := 10
    maxRestartsPerHour := 6
    healthDataStaleSeconds := 60 }

/-- Layer-health record builder for fixtures. -/
def mkLayer (L : Layer) (st : String) (r : Bool) (o : Int) (h : Option String) :
    LayerHealth :=
  { layer := L, state := st, ordinal := o, reachable := r, clusterSize := 3
    clusterHash := h }

/-- Snapshot with a single node whose ml0 ordinal is 100. -/
def snapStall : HealthSnapshot :=
  { timestamp := 0, stale := false, source := Source.redis
    nodes := [⟨"10.0.0.1", "node1", [mkLayer Layer.ml0 "Ready" true 100 Option.none]⟩] }

/-- Tracker that already saw ordinal 100 for that node at time 0. -/
def trStall : TrackerState := [("10.0.0.1:ml0", ⟨100, 0⟩)]

/-- Three-node snapshot where node 3 disagrees on the cl1 cluster hash. -/
def snapFork : HealthSnapshot :=
  { timestamp := 0, stale := false, source := Source.redis
    nodes := [⟨"10.0.0.1", "node1", [mkLayer Layer.ml0 "Ready" true 100 (some "aaa"),
                mkLayer Layer.cl1 "Ready" true 0 (some "ppp")]⟩,
              ⟨"10.0.0.2", "node2", [mkLayer Layer.ml0 "Ready" true 100 (some "aaa"),
                mkLayer Layer.cl1 "Ready" true 0 (some "ppp")]⟩,
              ⟨"10.0.0.3", "node3", [mkLayer Layer.ml0 "Ready" true 100 (some "aaa"),
                mkLayer Layer.cl1 "Ready" true 0 (some "qqq")]⟩] }

/-! ### Claim C8 — stall tracker update/staleness algebra -/

/-- C8: updating the tracker with an ordinal identical to the recorded one
leaves both the recorded ordinal and the last-changed timestamp unchanged, so
`staleSecs` strictly increases between two consecutive ticks; updating with a
strictly higher ordinal records the new ordinal, resets the last-changed
timestamp to the observation time, and `staleSecs` at that time is zero. -/
theorem stallTracker_update_spec (st : TrackerState) (nodeId layer : String)
    (o ts o₂ t now1 now2 : Int)
    (h : lookupState st (trackerKey nodeId layer) = some ⟨o, ts⟩) :
    trackerUpdate st nodeId layer o t = (false, st)
    ∧ (now1 < now2 → ∀ q1 q2 : Rat, staleSecs st nodeId layer now1 = some q1 →
        staleSecs st nodeId layer now2 = some q2 → q1 < q2)
    ∧ (o < o₂ →
        trackerUpdate st nodeId layer o₂ t =
          (true, setState st (trackerKey nodeId layer) ⟨o₂, t⟩)
        ∧ staleSecs (setState st (trackerKey nodeId layer) ⟨o₂, t⟩) nodeId layer t =
            some 0) := by
  refine ⟨?_, ?_, ?_⟩
  · simp [trackerUpdate, h]
  · intro hlt q1 q2 h1 h2
    simp [staleSecs, h] at h1 h2
    subst h1
    subst h2
    rw [Rat.divInt_eq_div, Rat.divInt_eq_div]
    push_cast
    gcongr
  · intro hlt
    constructor
    · have hne : o₂ ≠ o := ne_of_gt hlt
      simp [trackerUpdate, h, hne, hlt]
    · simp [staleSecs, lookupState_setState]

/-- Witness for C8 at a concrete tracker state. -/
theorem stallTracker_update_spec_witness :
    trackerUpdate [("n:ml0", ⟨5, 0⟩)] "n" "ml0" 5 1000 = (false, [("n:ml0", ⟨5, 0⟩)])
    ∧ trackerUpdate [("n:ml0", ⟨5, 0⟩)] "n" "ml0" 6 1000 =
        (true, setState [("n:ml0", ⟨5, 0⟩)] (trackerKey "n" "ml0") ⟨6, 1000⟩) := by
  have h := stallTracker_update_spec [("n:ml0", ⟨5, 0⟩)] "n" "ml0" 5 0 6 1000 1 2
    (by decide)
  exact ⟨h.1, (h.2.2 (by decide)).1⟩

/-! ### Claim C10 — an ordinal decrease restarts the stall clock -/

/-- C10: when the selected node reports an ordinal strictly lower than the
recorded one, `trackerUpdate` records the lower ordinal with a reset
timestamp but reports no advance, and the stall detector reports
`detected = false` for that cycle (for any positive stall threshold). -/
theorem stallDetector_decrease_resets (cfg : Config) (snapshot : HealthSnapshot)
    (tracker : TrackerState) (now : Int) (ip : String) (o o' ts : Int)
    (hsel : firstMl0Selection snapshot.nodes = some (ip, o'))
    (hprev : lookupState tracker (trackerKey ip "ml0") = some ⟨o, ts⟩)
    (hlt : o' < o) (hthr : 0 < cfg.snapshotStallMinutes) :
    (detectSnapshotsStoppedFromSnapshot cfg snapshot tracker now).1.detected = false
    ∧ (detectSnapshotsStoppedFromSnapshot cfg snapshot tracker now).2 =
        setState tracker (trackerKey ip "ml0") ⟨o', now⟩
    ∧ (trackerUpdate tracker ip "ml0" o' now).1 = false := by
  have hne : o' ≠ o := ne_of_lt hlt
  have hngt : ¬ (o' > o) := not_lt_of_gt hlt
  have hupd : trackerUpdate tracker ip "ml0" o' now =
      (false, setState tracker (trackerKey ip "ml0") ⟨o', now⟩) := by
    simp [trackerUpdate, hprev, hne, hngt]
  have hstale : staleSecs (setState tracker (trackerKey ip "ml0") ⟨o', now⟩)
      ip "ml0" now = some 0 := by
    simp [staleSecs, lookupState_setState]
  have hmin : ratDiv60 (0 : Rat) = 0 := by decide
  have hnotle : ¬ cfg.snapshotStallMinutes ≤ ratDiv60 (0 : Rat) := by
    rw [hmin]; exact not_le_of_gt hthr
  refine ⟨?_, ?_, ?_⟩
  · simp [detectSnapshotsStoppedFromSnapshot, hsel, hupd, lastOrdinal, hprev,
      stallNotDetected, hstale, hnotle]
  · simp [detectSnapshotsStoppedFromSnapshot, hsel, hupd, lastOrdinal, hprev,
      stallNotDetected, hstale, hnotle]
  · simp [hupd]

/-- Witness for C10: ordinal drops from 100 to 90, detector stays quiet. -/
theorem stallDetector_decrease_resets_witness :
    (detectSnapshotsStoppedFromSnapshot cfg3
      { snapStall with nodes := [⟨"10.0.0.1", "node1",
          [mkLayer Layer.ml0 "Ready" true 90 Option.none]⟩] }
      trStall 240000).1.detected = false := by
  have h := stallDetector_decrease_resets cfg3
    { snapStall with nodes := [⟨"10.0.0.1", "node1",
        [mkLayer Layer.ml0 "Ready" true 90 Option.none]⟩] }
    trStall 240000 "10.0.0.1" 100 90 0 (by decide) (by decide) (by decide) (by decide)
  exact h.1

/-! ### Claim C1 — safety refusal leaves everything untouched -/

/-- C1: for a positive detection with a real scope, when the history already
holds at least `maxRestartsPerHour` entries inside the trailing 60 minutes, or
its most recent entry is younger than `restartCooldownMinutes`, the
orchestrator returns false, performs no remote action and leaves the history
unchanged — the hypotheses mention only the global history's timestamps, so
the refusal is independent of the scopes of the current and past attempts. -/
theorem executeRestart_refusal (cfg : Config) (result : DetectionResult)
    (history : List RestartEvent) (now : Int) (proc : Except String Unit)
    (hdet : result.detected = true) (hscope : result.restartScope ≠ RestartScope.none)
    (hblock : cfg.maxRestartsPerHour ≤ (recentRestartCount history now : Int)
      ∨ ∃ lastRestart, history.getLast? = some lastRestart
          ∧ now - lastRestart.timestamp < cfg.restartCooldownMinutes * 60000) :
    executeRestart cfg result history now proc =
      { returned := false, history := history, actedRemotely := false } := by
  rcases hblock with hrate | ⟨lastRestart, hlast, hcool⟩
  · simp [executeRestart, hdet, hscope, hrate]
  · by_cases hrate : cfg.maxRestartsPerHour ≤ (recentRestartCount history now : Int)
    · simp [executeRestart, hdet, hscope, hrate]
    · simp [executeRestart, hdet, hscope, hrate, hlast, hcool]

/-- Witness for C1: one restart one minute ago, cooldown 10 minutes. -/
theorem executeRestart_refusal_witness :
    executeRestart cfg3
      { detected := true, condition := "ForkedCluster", details := ""
        restartScope := RestartScope.individualNode }
      [{ timestamp := 0, scope := RestartScope.fullMetagraph, condition := "SnapshotsStopped"
         layers := [], nodes := [], success := true }]
      60000 (Except.ok ()) =
      { returned := false
        history := [{ timestamp := 0, scope := RestartScope.fullMetagraph
                      condition := "SnapshotsStopped", layers := [], nodes := []
                      success := true }]
        actedRemotely := false } := by
  exact executeRestart_refusal cfg3 _ _ 60000 (Except.ok ()) (by decide) (by decide)
    (Or.inr ⟨{ timestamp := 0, scope := RestartScope.fullMetagraph
               condition := "SnapshotsStopped", layers := [], nodes := []
               success := true }, by decide, by decide⟩)

/-! ### Claim C2 — every permitted attempt appends exactly one entry -/

/-- C2: for a positive detection with a real scope that passes the rate-limit
and cooldown checks, `executeRestart` appends exactly one entry to the shared
history whether the procedure succeeds or fails — with `success = true` on
success and `success = false` plus the error description on failure — and
returns exactly the success flag, so callers receive `false` on any failure;
the embedding is a total function, the image of the orchestrator's catch-all
`try/catch`, so no fault escapes its boundary. -/
theorem executeRestart_attempt (cfg : Config) (result : DetectionResult)
    (history : List RestartEvent) (now : Int) (proc : Except String Unit)
    (hdet : result.detected = true) (hscope : result.restartScope ≠ RestartScope.none)
    (hrate : ¬ cfg.maxRestartsPerHour ≤ (recentRestartCount history now : Int))
    (hcool : ∀ lastRestart, history.getLast? = some lastRestart →
      cfg.restartCooldownMinutes * 60000 ≤ now - lastRestart.timestamp) :
    (executeRestart cfg result history now proc).history =
      history ++ [mkRestartEvent result now proc]
    ∧ (mkRestartEvent result now proc).success = procSuccess proc
    ∧ (mkRestartEvent result now proc).error = procError proc
    ∧ (executeRestart cfg result history now proc).returned = procSuccess proc
    ∧ (∀ e, proc = Except.error e →
        (executeRestart cfg result history now proc).returned = false
        ∧ (mkRestartEvent result now proc).error = some e) := by
  have hbody : executeRestart cfg result history now proc =
      { returned := procSuccess proc
        history := history ++ [mkRestartEvent result now proc]
        actedRemotely := true } := by
    rcases hl : history.getLast? with _ | lastRestart
    · simp [executeRestart, hdet, hscope, hrate, hl]
    · have hc := hcool lastRestart hl
      have hnc : ¬ now - lastRestart.timestamp < cfg.restartCooldownMinutes * 60000 :=
        not_lt_of_ge hc
      simp [executeRestart, hdet, hscope, hrate, hl, hnc]
  refine ⟨by rw [hbody], rfl, rfl, by rw [hbody], ?_⟩
  intro e he
  subst he
  exact ⟨by rw [hbody]; rfl, rfl⟩

/-- Witness for C2: empty history, failing procedure — exactly one failure
entry is appended and the caller receives false. -/
theorem executeRestart_attempt_witness :
    (executeRestart cfg3
      { detected := true, condition := "UnhealthyNodes", details := ""
        restartScope := RestartScope.fullLayer, affectedLayers := some [Layer.cl1]
        affectedNodes := some ["10.0.0.2"] }
      [] 5000 (Except.error "ssh failed")).history =
      [] ++ [mkRestartEvent
        { detected := true, condition := "UnhealthyNodes", details := ""
          restartScope := RestartScope.fullLayer, affectedLayers := some [Layer.cl1]
          affectedNodes := some ["10.0.0.2"] } 5000 (Except.error "ssh failed")]
    ∧ (executeRestart cfg3
        { detected := true, condition := "UnhealthyNodes", details := ""
          restartScope := RestartScope.fullLayer, affectedLayers := some [Layer.cl1]
          affectedNodes := some ["10.0.0.2"] }
        [] 5000 (Except.error "ssh failed")).returned = false := by
  have h := executeRestart_attempt cfg3
    { detected := true, condition := "UnhealthyNodes", details := ""
      restartScope := RestartScope.fullLayer, affectedLayers := some [Layer.cl1]
      affectedNodes := some ["10.0.0.2"] }
    [] 5000 (Except.error "ssh failed") (by decide) (by decide) (by decide)
    (by intro l hl; simp at hl)
  exact ⟨h.1, (h.2.2.2.2 "ssh failed" rfl).1⟩

/-! ### Claim C6 — stall detector contract -/

theorem ratDiv60_eq_div (q : Rat) : ratDiv60 q = q / 60 := by
  rw [ratDiv60, Rat.divInt_eq_div]
  push_cast
  rw [div_mul_eq_div_div, Rat.num_div_den]

theorem ratDiv60_divInt (x : Int) :
    ratDiv60 (Rat.divInt x 1000) = Rat.divInt x 60000 := by
  rw [ratDiv60_eq_div, Rat.divInt_eq_div, Rat.divInt_eq_div, div_div]
  norm_num

/-- Counterexample to C6: with the default 4-minute threshold and the ordinal
unchanged for exactly 4 minutes (240000 ms), the elapsed time does not exceed
the threshold, yet the detector reports `detected = true` — the source
compares with `>=`, not with a strict `>`. -/
theorem snapshotsStopped_boundary_cx :
    (detectSnapshotsStoppedFromSnapshot cfg3 snapStall trStall 240000).1.detected = true
    ∧ cfg3.snapshotStallMinutes = 4
    ∧ lookupState trStall (trackerKey "10.0.0.1" "ml0") = some ⟨100, 0⟩
    ∧ ¬ ((4 : Rat) < Rat.divInt (240000 - 0) 60000) := by
  refine ⟨by decide, by decide, by decide, by decide⟩

/-- C6 (amended: the stall fires when the elapsed time reaches **or** exceeds
the threshold): when no node is reachable with a non-negative ml0 ordinal the
detector reports not-detected with the distinguishing detail string
"ML0 unreachable"; when the selected node's ordinal equals the tracker's
recorded value, it reports `detected = true` — with scope `full-metagraph`
and affected layers ml0, cl1, dl1 — if and only if the elapsed minutes since
the last ordinal change are at least `snapshotStallMinutes`. -/
theorem snapshotsStopped_spec (cfg : Config) (snapshot : HealthSnapshot)
    (tracker : TrackerState) (now : Int) :
    (firstMl0Selection snapshot.nodes = Option.none →
      (detectSnapshotsStoppedFromSnapshot cfg snapshot tracker now).1.detected = false
      ∧ (detectSnapshotsStoppedFromSnapshot cfg snapshot tracker now).1.details =
          "ML0 unreachable")
    ∧ (∀ ip o ts, firstMl0Selection snapshot.nodes = some (ip, o) →
        lookupState tracker (trackerKey ip "ml0") = some ⟨o, ts⟩ →
        ((detectSnapshotsStoppedFromSnapshot cfg snapshot tracker now).1.detected = true
            ↔ cfg.snapshotStallMinutes ≤ Rat.divInt (now - ts) 60000)
        ∧ ((detectSnapshotsStoppedFromSnapshot cfg snapshot tracker now).1.detected = true →
            (detectSnapshotsStoppedFromSnapshot cfg snapshot tracker now).1.restartScope =
              RestartScope.fullMetagraph
            ∧ (detectSnapshotsStoppedFromSnapshot cfg snapshot tracker now).1.affectedLayers =
                some [Layer.ml0, Layer.cl1, Layer.dl1])) := by
  constructor
  · intro hnone
    simp [detectSnapshotsStoppedFromSnapshot, hnone, stallNotDetected]
  · intro ip o ts hsel hprev
    have hupd : trackerUpdate tracker ip "ml0" o now = (false, tracker) := by
      simp [trackerUpdate, hprev]
    by_cases hc : cfg.snapshotStallMinutes ≤ Rat.divInt (now - ts) 60000
    · constructor
      · simp [detectSnapshotsStoppedFromSnapshot, hsel, hupd, lastOrdinal, hprev,
          staleSecs, ratDiv60_divInt, hc]
      · intro _
        constructor
        · simp [detectSnapshotsStoppedFromSnapshot, hsel, hupd, lastOrdinal, hprev,
            staleSecs, ratDiv60_divInt, hc]
        · simp [detectSnapshotsStoppedFromSnapshot, hsel, hupd, lastOrdinal, hprev,
            staleSecs, ratDiv60_divInt, hc]
    · constructor
      · simp [detectSnapshotsStoppedFromSnapshot, hsel, hupd, lastOrdinal, hprev,
          staleSecs, ratDiv60_divInt, hc, stallNotDetected]
      · intro hdet
        exfalso
        have : (detectSnapshotsStoppedFromSnapshot cfg snapshot tracker now).1.detected =
            false := by
          simp [detectSnapshotsStoppedFromSnapshot, hsel, hupd, lastOrdinal, hprev,
            staleSecs, ratDiv60_divInt, hc, stallNotDetected]
        rw [hdet] at this
        exact Bool.noConfusion this

/-- Witness for C6 (amended), matching the spec scenario: ordinal frozen at
100 for 5 minutes with a 4-minute threshold — detected, full-metagraph. -/
theorem snapshotsStopped_spec_witness :
    (detectSnapshotsStoppedFromSnapshot cfg3 snapStall trStall 300000).1.detected = true
    ∧ (detectSnapshotsStoppedFromSnapshot cfg3 snapStall trStall 300000).1.restartScope =
        RestartScope.fullMetagraph := by
  have h := (snapshotsStopped_spec cfg3 snapStall trStall 300000).2 "10.0.0.1" 100 0
    (by decide) (by decide)
  have hdet : (detectSnapshotsStoppedFromSnapshot cfg3 snapStall trStall 300000).1.detected =
      true := h.1.mpr (by decide)
  exact ⟨hdet, (h.2 hdet).1⟩

/-! ### Claim C5 — fork detector reports the first forked layer -/

/-- C5: the fork detector reports the first layer, in the fixed order ml0,
cl1, dl1, whose minority set is non-empty; its scope is full-layer when the
minority contains at least all nodes but one of the configured count and
individual-node otherwise; the affected nodes are exactly the minority and
the affected layer list is exactly that one layer; a layer is forked iff its
minority set is non-empty; when no layer is forked nothing is detected. -/
theorem forkedCluster_spec (cfg : Config) (snapshot : HealthSnapshot) :
    (∀ layer, (checkLayerForkFromSnapshot snapshot layer).forked = true
      ↔ (checkLayerForkFromSnapshot snapshot layer).minorityNodes ≠ [])
    ∧ ((checkLayerForkFromSnapshot snapshot Layer.ml0).forked = true →
        detectForkedClusterFromSnapshot cfg snapshot =
          forkResultFor cfg Layer.ml0 (checkLayerForkFromSnapshot snapshot Layer.ml0))
    ∧ ((checkLayerForkFromSnapshot snapshot Layer.ml0).forked = false →
        (checkLayerForkFromSnapshot snapshot Layer.cl1).forked = true →
        detectForkedClusterFromSnapshot cfg snapshot =
          forkResultFor cfg Layer.cl1 (checkLayerForkFromSnapshot snapshot Layer.cl1))
    ∧ ((checkLayerForkFromSnapshot snapshot Layer.ml0).forked = false →
        (checkLayerForkFromSnapshot snapshot Layer.cl1).forked = false →
        (checkLayerForkFromSnapshot snapshot Layer.dl1).forked = true →
        detectForkedClusterFromSnapshot cfg snapshot =
          forkResultFor cfg Layer.dl1 (checkLayerForkFromSnapshot snapshot Layer.dl1))
    ∧ ((checkLayerForkFromSnapshot snapshot Layer.ml0).forked = false →
        (checkLayerForkFromSnapshot snapshot Layer.cl1).forked = false →
        (checkLayerForkFromSnapshot snapshot Layer.dl1).forked = false →
        (detectForkedClusterFromSnapshot cfg snapshot).detected = false)
    ∧ (∀ layer r, forkResultFor cfg layer r =
        { detected := true
          condition := "ForkedCluster"
          details := "forked"
          restartScope :=
            if cfg.nodes.length - 1 ≤ r.minorityNodes.length then RestartScope.fullLayer
            else RestartScope.individualNode
          affectedNodes := some r.minorityNodes
          affectedLayers := some [layer] }) := by
  refine ⟨?_, ?_, ?_, ?_, ?_, fun layer r => rfl⟩
  · intro layer
    simp [checkLayerForkFromSnapshot]
  · intro h1
    simp [detectForkedClusterFromSnapshot, goForkLayers, h1]
  · intro h1 h2
    simp [detectForkedClusterFromSnapshot, goForkLayers, h1, h2]
  · intro h1 h2 h3
    simp [detectForkedClusterFromSnapshot, goForkLayers, h1, h2, h3]
  · intro h1 h2 h3
    simp [detectForkedClusterFromSnapshot, goForkLayers, h1, h2, h3]

/-- Witness for C5, matching the spec scenario: 3 nodes, node 3 reporting a
different cl1 cluster digest — detected, scope individual-node, affected
exactly node 3 on layer cl1. -/
theorem forkedCluster_spec_witness :
    (detectForkedClusterFromSnapshot cfg3 snapFork).detected = true
    ∧ (detectForkedClusterFromSnapshot cfg3 snapFork).restartScope =
        RestartScope.individualNode
    ∧ (detectForkedClusterFromSnapshot cfg3 snapFork).affectedNodes = some ["10.0.0.3"]
    ∧ (detectForkedClusterFromSnapshot cfg3 snapFork).affectedLayers = some [Layer.cl1] := by
  have h := forkedCluster_spec cfg3 snapFork
  have hb := h.2.2.1 (by decide) (by decide)
  rw [hb]
  refine ⟨rfl, ?_, by decide, rfl⟩
  simp [forkResultFor]
  decide

/-! ### Claim C7 — unhealthy-nodes scope priority -/

theorem unhealthyByLayer_isEmpty (snapshot : HealthSnapshot)
    (h : (unhealthyByLayer snapshot).isEmpty = true) :
    ∀ layer, unhealthyIpsForLayer snapshot layer = [] := by
  intro layer
  rw [List.isEmpty_iff] at h
  rw [unhealthyByLayer, List.filterMap_eq_nil_iff] at h
  have hmem : layer ∈ [Layer.gl0, Layer.ml0, Layer.cl1, Layer.dl1] := by
    cases layer <;> simp
  have := h layer hmem
  by_cases he : (unhealthyIpsForLayer snapshot layer).isEmpty
  · exact List.isEmpty_iff.mp he
  · simp [he] at this

theorem unhealthyByLayer_nonempty (snapshot : HealthSnapshot) (layer : Layer)
    (h : unhealthyIpsForLayer snapshot layer ≠ []) :
    (unhealthyByLayer snapshot).isEmpty = false := by
  by_cases he : (unhealthyByLayer snapshot).isEmpty
  · exact absurd (unhealthyByLayer_isEmpty snapshot he layer) h
  · simpa using he

theorem layerFullyDown_iff (snapshot : HealthSnapshot) (layer : Layer) (n : Nat)
    (hn : 0 < n) :
    layerFullyDown (unhealthyByLayer snapshot) layer n = true
      ↔ (unhealthyIpsForLayer snapshot layer).length = n := by
  have hn0 : ¬ ((0 : Nat) = n) := by omega
  cases layer <;>
    (by_cases h0 : (unhealthyIpsForLayer snapshot Layer.gl0).isEmpty <;>
     by_cases h1 : (unhealthyIpsForLayer snapshot Layer.ml0).isEmpty <;>
     by_cases h2 : (unhealthyIpsForLayer snapshot Layer.cl1).isEmpty <;>
     by_cases h3 : (unhealthyIpsForLayer snapshot Layer.dl1).isEmpty <;>
     simp_all [unhealthyByLayer, layerFullyDown, List.filterMap, List.find?,
       List.isEmpty_iff])

theorem layerFullyDown_false (snapshot : HealthSnapshot) (layer : Layer) (n : Nat)
    (hn : 0 < n) (h : (unhealthyIpsForLayer snapshot layer).length ≠ n) :
    layerFullyDown (unhealthyByLayer snapshot) layer n = false := by
  by_cases hb : layerFullyDown (unhealthyByLayer snapshot) layer n
  · exact absurd ((layerFullyDown_iff snapshot layer n hn).mp hb) h
  · simpa using hb

/-- An empty node configuration (degenerate, but accepted by the detector). -/
def cfgEmpty : Config :=
  { nodes := []
    snapshotStallMinutes := 4
    restartCooldownMinutes := 10
    maxRestartsPerHour := 6
    healthDataStaleSeconds := 60 }

/-- A snapshot with one node that is healthy on gl0 and has no entries for
the other layers. -/
def snapOrphan : HealthSnapshot :=
  { timestamp := 0, stale := false, source := Source.redis
    nodes := [⟨"10.0.0.1", "node1", [mkLayer Layer.gl0 "Ready" true 0 Option.none]⟩] }

/-- Counterexample to C7: with zero configured nodes, the gl0 unhealthy count
(0) equals the total configured node count (0) — "every node unhealthy on the
foundational layer" reads as vacuously true — yet the detector returns scope
`individual-node`, because the source only compares the count of a layer that
has a *non-empty* unhealthy list.  The claim's escalation guarantee therefore
fails for an empty node list. -/
theorem unhealthyNodes_cx :
    (unhealthyIpsForLayer snapOrphan Layer.gl0).length = cfgEmpty.nodes.length
    ∧ (detectUnhealthyNodesFromSnapshot cfgEmpty snapOrphan).restartScope =
        RestartScope.individualNode := by
  refine ⟨by decide, by decide⟩

/-- C7 (amended: restricted to a non-empty node configuration): the detector's
scope follows the stated priority — all nodes unhealthy on gl0 gives
full-metagraph over all four layers; else all nodes unhealthy on ml0 gives
full-metagraph over ml0 and its dependents; else a fully-unhealthy cl1 (then
dl1) gives full-layer for that layer; else any unhealthy node gives
individual-node with the union of affected addresses and layers; hence
whenever some layer's unhealthy count equals the configured node count, the
scope is full-layer or higher, never individual-node. -/
theorem unhealthyNodes_spec (cfg : Config) (snapshot : HealthSnapshot)
    (hn : 0 < cfg.nodes.length) :
    ((unhealthyIpsForLayer snapshot Layer.gl0).length = cfg.nodes.length →
      detectUnhealthyNodesFromSnapshot cfg snapshot =
        { detected := true, condition := "UnhealthyNodes"
          details := "GL0 fully down"
          restartScope := RestartScope.fullMetagraph
          affectedLayers := some [Layer.gl0, Layer.ml0, Layer.cl1, Layer.dl1]
          affectedNodes := some (cfg.nodes.map (fun n => n.ip)) })
    ∧ ((unhealthyIpsForLayer snapshot Layer.gl0).length ≠ cfg.nodes.length →
        (unhealthyIpsForLayer snapshot Layer.ml0).length = cfg.nodes.length →
        detectUnhealthyNodesFromSnapshot cfg snapshot =
          { detected := true, condition := "UnhealthyNodes"
            details := "ML0 fully down"
            restartScope := RestartScope.fullMetagraph
            affectedLayers := some [Layer.ml0, Layer.cl1, Layer.dl1]
            affectedNodes := some (cfg.nodes.map (fun n => n.ip)) })
    ∧ ((unhealthyIpsForLayer snapshot Layer.gl0).length ≠ cfg.nodes.length →
        (unhealthyIpsForLayer snapshot Layer.ml0).length ≠ cfg.nodes.length →
        (unhealthyIpsForLayer snapshot Layer.cl1).length = cfg.nodes.length →
        detectUnhealthyNodesFromSnapshot cfg snapshot =
          { detected := true, condition := "UnhealthyNodes"
            details := "CL1 fully down"
            restartScope := RestartScope.fullLayer
            affectedLayers := some [Layer.cl1]
            affectedNodes := some (cfg.nodes.map (fun n => n.ip)) })
    ∧ ((unhealthyIpsForLayer snapshot Layer.gl0).length ≠ cfg.nodes.length →
        (unhealthyIpsForLayer snapshot Layer.ml0).length ≠ cfg.nodes.length →
        (unhealthyIpsForLayer snapshot Layer.cl1).length ≠ cfg.nodes.length →
        (unhealthyIpsForLayer snapshot Layer.dl1).length = cfg.nodes.length →
        detectUnhealthyNodesFromSnapshot cfg snapshot =
          { detected := true, condition := "UnhealthyNodes"
            details := "DL1 fully down"
            restartScope := RestartScope.fullLayer
            affectedLayers := some [Layer.dl1]
            affectedNodes := some (cfg.nodes.map (fun n => n.ip)) })
    ∧ ((∀ layer, (unhealthyIpsForLayer snapshot layer).length ≠ cfg.nodes.length) →
        (∃ layer, unhealthyIpsForLayer snapshot layer ≠ []) →
        detectUnhealthyNodesFromSnapshot cfg snapshot =
          { detected := true, condition := "UnhealthyNodes"
            details := "Individual unhealthy nodes"
            restartScope := RestartScope.individualNode
            affectedLayers := some ((unhealthyByLayer snapshot).map (fun e => e.1))
            affectedNodes := some (jsDedup
              ((unhealthyByLayer snapshot).map (fun e => e.2)).flatten) })
    ∧ ((∃ layer, (unhealthyIpsForLayer snapshot layer).length = cfg.nodes.length) →
        (detectUnhealthyNodesFromSnapshot cfg snapshot).restartScope ≠
          RestartScope.individualNode
        ∧ (detectUnhealthyNodesFromSnapshot cfg snapshot).restartScope ≠
          RestartScope.none) := by
  have hlen0 : ∀ layer, (unhealthyIpsForLayer snapshot layer).length = cfg.nodes.length →
      unhealthyIpsForLayer snapshot layer ≠ [] := by
    intro layer hl hnil
    rw [hnil] at hl
    simp at hl
    omega
  have hne : ∀ layer, (unhealthyIpsForLayer snapshot layer).length = cfg.nodes.length →
      (unhealthyByLayer snapshot).isEmpty = false := fun layer hl =>
    unhealthyByLayer_nonempty snapshot layer (hlen0 layer hl)
  have hgA : (unhealthyIpsForLayer snapshot Layer.gl0).length = cfg.nodes.length →
      detectUnhealthyNodesFromSnapshot cfg snapshot =
        { detected := true, condition := "UnhealthyNodes"
          details := "GL0 fully down"
          restartScope := RestartScope.fullMetagraph
          affectedLayers := some [Layer.gl0, Layer.ml0, Layer.cl1, Layer.dl1]
          affectedNodes := some (cfg.nodes.map (fun n => n.ip)) } := by
    intro h0
    have hf := (layerFullyDown_iff snapshot Layer.gl0 cfg.nodes.length hn).mpr h0
    simp [detectUnhealthyNodesFromSnapshot, hne Layer.gl0 h0, hf]
  have hgB : (unhealthyIpsForLayer snapshot Layer.gl0).length ≠ cfg.nodes.length →
      (unhealthyIpsForLayer snapshot Layer.ml0).length = cfg.nodes.length →
      detectUnhealthyNodesFromSnapshot cfg snapshot =
        { detected := true, condition := "UnhealthyNodes"
          details := "ML0 fully down"
          restartScope := RestartScope.fullMetagraph
          affectedLayers := some [Layer.ml0, Layer.cl1, Layer.dl1]
          affectedNodes := some (cfg.nodes.map (fun n => n.ip)) } := by
    intro h0 h1
    have hf0 := layerFullyDown_false snapshot Layer.gl0 cfg.nodes.length hn h0
    have hf1 := (layerFullyDown_iff snapshot Layer.ml0 cfg.nodes.length hn).mpr h1
    simp [detectUnhealthyNodesFromSnapshot, hne Layer.ml0 h1, hf0, hf1]
  have hgC : (unhealthyIpsForLayer snapshot Layer.gl0).length ≠ cfg.nodes.length →
      (unhealthyIpsForLayer snapshot Layer.ml0).length ≠ cfg.nodes.length →
      (unhealthyIpsForLayer snapshot Layer.cl1).length = cfg.nodes.length →
      detectUnhealthyNodesFromSnapshot cfg snapshot =
        { detected := true, condition := "UnhealthyNodes"
          details := "CL1 fully down"
          restartScope := RestartScope.fullLayer
          affectedLayers := some [Layer.cl1]
          affectedNodes := some (cfg.nodes.map (fun n => n.ip)) } := by
    intro h0 h1 h2
    have hf0 := layerFullyDown_false snapshot Layer.gl0 cfg.nodes.length hn h0
    have hf1 := layerFullyDown_false snapshot Layer.ml0 cfg.nodes.length hn h1
    have hf2 := (layerFullyDown_iff snapshot Layer.cl1 cfg.nodes.length hn).mpr h2
    simp [detectUnhealthyNodesFromSnapshot, hne Layer.cl1 h2, hf0, hf1, hf2]
  have hgD : (unhealthyIpsForLayer snapshot Layer.gl0).length ≠ cfg.nodes.length →
      (unhealthyIpsForLayer snapshot Layer.ml0).length ≠ cfg.nodes.length →
      (unhealthyIpsForLayer snapshot Layer.cl1).length ≠ cfg.nodes.length →
      (unhealthyIpsForLayer snapshot Layer.dl1).length = cfg.nodes.length →
      detectUnhealthyNodesFromSnapshot cfg snapshot =
        { detected := true, condition := "UnhealthyNodes"
          details := "DL1 fully down"
          restartScope := RestartScope.fullLayer
          affectedLayers := some [Layer.dl1]
          affectedNodes := some (cfg.nodes.map (fun n => n.ip)) } := by
    intro h0 h1 h2 h3
    have hf0 := layerFullyDown_false snapshot Layer.gl0 cfg.nodes.length hn h0
    have hf1 := layerFullyDown_false snapshot Layer.ml0 cfg.nodes.length hn h1
    have hf2 := layerFullyDown_false snapshot Layer.cl1 cfg.nodes.length hn h2
    have hf3 := (layerFullyDown_iff snapshot Layer.dl1 cfg.nodes.length hn).mpr h3
    simp [detectUnhealthyNodesFromSnapshot, hne Layer.dl1 h3, hf0, hf1, hf2, hf3]
  refine ⟨hgA, hgB, hgC, hgD, ?_, ?_⟩
  · intro hall ⟨layer, hlayer⟩
    have hnem := unhealthyByLayer_nonempty snapshot layer hlayer
    have hf0 := layerFullyDown_false snapshot Layer.gl0 cfg.nodes.length hn
      (hall Layer.gl0)
    have hf1 := layerFullyDown_false snapshot Layer.ml0 cfg.nodes.length hn
      (hall Layer.ml0)
    have hf2 := layerFullyDown_false snapshot Layer.cl1 cfg.nodes.length hn
      (hall Layer.cl1)
    have hf3 := layerFullyDown_false snapshot Layer.dl1 cfg.nodes.length hn
      (hall Layer.dl1)
    simp [detectUnhealthyNodesFromSnapshot, hnem, hf0, hf1, hf2, hf3]
  · intro ⟨layer, hlayer⟩
    by_cases h0 : (unhealthyIpsForLayer snapshot Layer.gl0).length = cfg.nodes.length
    · rw [hgA h0]; exact ⟨by simp, by simp⟩
    · by_cases h1 : (unhealthyIpsForLayer snapshot Layer.ml0).length = cfg.nodes.length
      · rw [hgB h0 h1]; exact ⟨by simp, by simp⟩
      · by_cases h2 : (unhealthyIpsForLayer snapshot Layer.cl1).length = cfg.nodes.length
        · rw [hgC h0 h1 h2]; exact ⟨by simp, by simp⟩
        · by_cases h3 : (unhealthyIpsForLayer snapshot Layer.dl1).length = cfg.nodes.length
          · rw [hgD h0 h1 h2 h3]; exact ⟨by simp, by simp⟩
          · exfalso
            cases layer <;> simp_all

/-- Witness for C7 (amended), matching the spec scenario: all 3 nodes
unreachable on gl0 — full-metagraph over all four layers. -/
theorem unhealthyNodes_spec_witness :
    detectUnhealthyNodesFromSnapshot cfg3
      { timestamp := 0, stale := false, source := Source.redis
        nodes := [⟨"10.0.0.1", "node1", [mkLayer Layer.gl0 "Ready" false 0 Option.none,
                    mkLayer Layer.ml0 "Ready" true 0 Option.none,
                    mkLayer Layer.cl1 "Ready" true 0 Option.none,
                    mkLayer Layer.dl1 "Ready" true 0 Option.none]⟩,
                  ⟨"10.0.0.2", "node2", [mkLayer Layer.gl0 "Ready" false 0 Option.none,
                    mkLayer Layer.ml0 "Ready" true 0 Option.none,
                    mkLayer Layer.cl1 "Ready" true 0 Option.none,
                    mkLayer Layer.dl1 "Ready" true 0 Option.none]⟩,
                  ⟨"10.0.0.3", "node3", [mkLayer Layer.gl0 "Ready" false 0 Option.none,
                    mkLayer Layer.ml0 "Ready" true 0 Option.none,
                    mkLayer Layer.cl1 "Ready" true 0 Option.none,
                    mkLayer Layer.dl1 "Ready" true 0 Option.none]⟩] } =
      { detected := true, condition := "UnhealthyNodes"
        details := "GL0 fully down"
        restartScope := RestartScope.fullMetagraph
        affectedLayers := some [Layer.gl0, Layer.ml0, Layer.cl1, Layer.dl1]
        affectedNodes := some (cfg3.nodes.map (fun n => n.ip)) } := by
  exact (unhealthyNodes_spec cfg3 _ (by decide)).1 (by decide)

/-! ### Claim C3 — detector ordering and short-circuiting in the loop -/

/-- Orchestrator outcome for the fork detection of a cycle. -/
def forkOutcome (cfg : Config) (snapshot : HealthSnapshot)
    (history : List RestartEvent) (now : Int) (procFork : Except String Unit) :
    ExecOutcome :=
  executeRestart cfg (detectForkedClusterFromSnapshot cfg snapshot) history now procFork

/-- History visible to the stall step of a cycle. -/
def historyAfterFork (cfg : Config) (snapshot : HealthSnapshot)
    (history : List RestartEvent) (now : Int) (procFork : Except String Unit) :
    List RestartEvent :=
  if (detectForkedClusterFromSnapshot cfg snapshot).detected then
    (forkOutcome cfg snapshot history now procFork).history
  else history

/-- Orchestrator outcome for the stall detection of a cycle. -/
def stallOutcome (cfg : Config) (snapshot : HealthSnapshot) (tracker : TrackerState)
    (history : List RestartEvent) (now : Int)
    (procFork procStall : Except String Unit) : ExecOutcome :=
  executeRestart cfg (detectSnapshotsStoppedFromSnapshot cfg snapshot tracker now).1
    (historyAfterFork cfg snapshot history now procFork) now procStall

/-- A rate-limited configuration: `maxRestartsPerHour = 0` refuses every
attempt. -/
def cfgRateLimited : Config := { cfg3 with maxRestartsPerHour := 0 }

/-- Counterexample to C3: the fork detector reports a positive detection, its
restart is refused (rate limit), and the loop then still evaluates the stall
and unhealthy-nodes detectors in the same cycle — a positive detection alone
does not short-circuit; only a performed restart does ("If restart was
skipped (cooldown/rate limit), continue checking" in src/index.ts). -/
theorem runHealthCheck_cx :
    (detectForkedClusterFromSnapshot cfgRateLimited snapFork).detected = true
    ∧ (runHealthCheck cfgRateLimited snapFork [] [] 0
        (Except.ok ()) (Except.ok ()) (Except.ok ())).evaluated =
      ["ForkedCluster", "SnapshotsStopped", "UnhealthyNodes"]
    ∧ (runHealthCheck cfgRateLimited snapFork [] [] 0
        (Except.ok ()) (Except.ok ()) (Except.ok ())).restarted = false := by
  refine ⟨by decide, by decide, by decide⟩

/-- C3 (amended): within a cycle the detectors are evaluated strictly in the
order fork, stall, unhealthy-nodes, and the orchestrator is invoked on every
positive detection among the evaluated ones; the cycle stops evaluating
further detectors exactly when a positive detection's restart was actually
performed — a refused or failed restart lets the remaining detectors run. -/
theorem runHealthCheck_spec (cfg : Config) (snapshot : HealthSnapshot)
    (tracker : TrackerState) (history : List RestartEvent) (now : Int)
    (procFork procStall procUnhealthy : Except String Unit) :
    ((runHealthCheck cfg snapshot tracker history now procFork procStall
        procUnhealthy).evaluated = ["ForkedCluster"]
      ∨ (runHealthCheck cfg snapshot tracker history now procFork procStall
          procUnhealthy).evaluated = ["ForkedCluster", "SnapshotsStopped"]
      ∨ (runHealthCheck cfg snapshot tracker history now procFork procStall
          procUnhealthy).evaluated =
          ["ForkedCluster", "SnapshotsStopped", "UnhealthyNodes"])
    ∧ ((runHealthCheck cfg snapshot tracker history now procFork procStall
          procUnhealthy).evaluated = ["ForkedCluster"]
        ↔ (detectForkedClusterFromSnapshot cfg snapshot).detected = true
          ∧ (forkOutcome cfg snapshot history now procFork).returned = true)
    ∧ ((runHealthCheck cfg snapshot tracker history now procFork procStall
          procUnhealthy).evaluated = ["ForkedCluster", "SnapshotsStopped"]
        ↔ ¬ ((detectForkedClusterFromSnapshot cfg snapshot).detected = true
              ∧ (forkOutcome cfg snapshot history now procFork).returned = true)
          ∧ (detectSnapshotsStoppedFromSnapshot cfg snapshot tracker now).1.detected = true
          ∧ (stallOutcome cfg snapshot tracker history now procFork procStall).returned
              = true)
    ∧ ("ForkedCluster" ∈ (runHealthCheck cfg snapshot tracker history now procFork
          procStall procUnhealthy).invoked
        ↔ (detectForkedClusterFromSnapshot cfg snapshot).detected = true)
    ∧ ("SnapshotsStopped" ∈ (runHealthCheck cfg snapshot tracker history now procFork
          procStall procUnhealthy).invoked
        ↔ ¬ ((detectForkedClusterFromSnapshot cfg snapshot).detected = true
              ∧ (forkOutcome cfg snapshot history now procFork).returned = true)
          ∧ (detectSnapshotsStoppedFromSnapshot cfg snapshot tracker now).1.detected
              = true)
    ∧ ("UnhealthyNodes" ∈ (runHealthCheck cfg snapshot tracker history now procFork
          procStall procUnhealthy).invoked
        ↔ ¬ ((detectForkedClusterFromSnapshot cfg snapshot).detected = true
              ∧ (forkOutcome cfg snapshot history now procFork).returned = true)
          ∧ ¬ ((detectSnapshotsStoppedFromSnapshot cfg snapshot tracker now).1.detected
                  = true
              ∧ (stallOutcome cfg snapshot tracker history now procFork
                  procStall).returned = true)
          ∧ (detectUnhealthyNodesFromSnapshot cfg snapshot).detected = true) := by
  by_cases hd1 : (detectForkedClusterFromSnapshot cfg snapshot).detected
  · by_cases ho1 : (forkOutcome cfg snapshot history now procFork).returned
    · refine ⟨Or.inl ?_, ?_, ?_, ?_, ?_, ?_⟩ <;>
        simp_all [runHealthCheck, forkOutcome, historyAfterFork, stallOutcome]
    · by_cases hd2 : (detectSnapshotsStoppedFromSnapshot cfg snapshot tracker now).1.detected
      · by_cases ho2 : (stallOutcome cfg snapshot tracker history now procFork
            procStall).returned
        · refine ⟨Or.inr (Or.inl ?_), ?_, ?_, ?_, ?_, ?_⟩ <;>
            simp_all [runHealthCheck, forkOutcome, historyAfterFork, stallOutcome]
        · by_cases hd3 : (detectUnhealthyNodesFromSnapshot cfg snapshot).detected <;>
            (refine ⟨Or.inr (Or.inr ?_), ?_, ?_, ?_, ?_, ?_⟩ <;>
              simp_all [runHealthCheck, forkOutcome, historyAfterFork, stallOutcome])
      · by_cases hd3 : (detectUnhealthyNodesFromSnapshot cfg snapshot).detected <;>
          (refine ⟨Or.inr (Or.inr ?_), ?_, ?_, ?_, ?_, ?_⟩ <;>
            simp_all [runHealthCheck, forkOutcome, historyAfterFork, stallOutcome])
  · by_cases hd2 : (detectSnapshotsStoppedFromSnapshot cfg snapshot tracker now).1.detected
    · by_cases ho2 : (stallOutcome cfg snapshot tracker history now procFork
          procStall).returned
      · refine ⟨Or.inr (Or.inl ?_), ?_, ?_, ?_, ?_, ?_⟩ <;>
          simp_all [runHealthCheck, forkOutcome, historyAfterFork, stallOutcome]
      · by_cases hd3 : (detectUnhealthyNodesFromSnapshot cfg snapshot).detected <;>
          (refine ⟨Or.inr (Or.inr ?_), ?_, ?_, ?_, ?_, ?_⟩ <;>
            simp_all [runHealthCheck, forkOutcome, historyAfterFork, stallOutcome])
    · by_cases hd3 : (detectUnhealthyNodesFromSnapshot cfg snapshot).detected <;>
        (refine ⟨Or.inr (Or.inr ?_), ?_, ?_, ?_, ?_, ?_⟩ <;>
          simp_all [runHealthCheck, forkOutcome, historyAfterFork, stallOutcome])

/-- Witness for C3 (amended), instantiated at the refused-fork cycle: the
evaluated list covers all three detectors, and fork plus unhealthy-nodes were
both handed to the orchestrator. -/
theorem runHealthCheck_spec_witness :
    "UnhealthyNodes" ∈ (runHealthCheck cfgRateLimited snapFork [] [] 0
      (Except.ok ()) (Except.ok ()) (Except.ok ())).invoked
    ∧ "ForkedCluster" ∈ (runHealthCheck cfgRateLimited snapFork [] [] 0
      (Except.ok ()) (Except.ok ()) (Except.ok ())).invoked := by
  have h := runHealthCheck_spec cfgRateLimited snapFork [] [] 0
    (Except.ok ()) (Except.ok ()) (Except.ok ())
  refine ⟨h.2.2.2.2.2.mpr ⟨by decide, by decide, by decide⟩, h.2.2.2.1.mpr (by decide)⟩

/-! ### Claim C9 — health reader degrades instead of failing -/

theorem mem_mapSetNode (acc : List NodeHealthData) (nd x : NodeHealthData)
    (hx : x ∈ mapSetNode acc nd) : x = nd ∨ x ∈ acc := by
  induction acc with
  | nil => simpa [mapSetNode] using hx
  | cons e es ih =>
    by_cases he : e.ip = nd.ip
    · simp [mapSetNode, he] at hx
      rcases hx with h | h
      · exact Or.inl h
      · exact Or.inr (List.mem_cons_of_mem e h)
    · simp [mapSetNode, he] at hx
      rcases hx with h | h
      · exact Or.inr (by simp [h])
      · rcases ih h with h' | h'
        · exact Or.inl h'
        · exact Or.inr (List.mem_cons_of_mem e h')

theorem initNodeMap_layers (nodes : List NodeConfig) :
    ∀ nd ∈ initNodeMap nodes, nd.layers = [] := by
  rw [initNodeMap]
  suffices h : ∀ acc : List NodeHealthData, (∀ nd ∈ acc, nd.layers = []) →
      ∀ nd ∈ nodes.foldl
        (fun acc n => mapSetNode acc { ip := n.ip, name := n.name, layers := [] }) acc,
      nd.layers = [] from h [] (by simp)
  induction nodes with
  | nil => intro acc hacc nd hnd; exact hacc nd hnd
  | cons n ns ih =>
    intro acc hacc nd hnd
    refine ih (mapSetNode acc { ip := n.ip, name := n.name, layers := [] }) ?_ nd hnd
    intro x hx
    rcases mem_mapSetNode _ _ _ hx with h | h
    · rw [h]
    · exact hacc x h

/-- The per-entry invariant of the direct-polling accumulator. -/
def ProbeConsistent (probes : Layer → String → DirectProbe)
    (acc : List NodeHealthData) : Prop :=
  ∀ nd ∈ acc, ∀ lh ∈ nd.layers, lh.reachable = (probes lh.layer nd.ip).info.isSome

theorem probeConsistent_push (probes : Layer → String → DirectProbe)
    (acc : List NodeHealthData) (h : NodeHealth)
    (hacc : ProbeConsistent probes acc)
    (hh : h.reachable = (probes h.layer h.nodeIp).info.isSome) :
    ProbeConsistent probes (pushLayerHealth acc h) := by
  intro nd hnd lh hlh
  rw [pushLayerHealth] at hnd
  rcases List.mem_map.mp hnd with ⟨nd0, hnd0, heq⟩
  by_cases hip : nd0.ip = h.nodeIp
  · rw [← heq] at hlh ⊢
    simp only [hip, if_pos] at hlh ⊢
    rcases List.mem_append.mp hlh with hold | hnew
    · simpa only [hip] using hacc nd0 hnd0 lh hold
    · simp at hnew
      subst hnew
      simpa [hip] using hh
  · rw [← heq] at hlh ⊢
    simp only [hip, if_neg, if_false] at hlh ⊢
    exact hacc nd0 hnd0 lh hlh

theorem probeConsistent_foldl (probes : Layer → String → DirectProbe)
    (hs : List NodeHealth) (acc : List NodeHealthData)
    (hacc : ProbeConsistent probes acc)
    (hhs : ∀ h ∈ hs, h.reachable = (probes h.layer h.nodeIp).info.isSome) :
    ProbeConsistent probes (hs.foldl pushLayerHealth acc) := by
  induction hs generalizing acc with
  | nil => exact hacc
  | cons h hs ih =>
    refine ih (pushLayerHealth acc h)
      (probeConsistent_push probes acc h hacc (hhs h (by simp))) ?_
    intro h' hh'
    exact hhs h' (by simp [hh'])

theorem pollDirectly_reachable (cfg : Config) (now : Int)
    (probes : Layer → String → DirectProbe) :
    ProbeConsistent probes (pollDirectly cfg now probes).nodes := by
  rw [pollDirectly]
  have hinit : ProbeConsistent probes (initNodeMap cfg.nodes) := by
    intro nd hnd lh hlh
    rw [initNodeMap_layers cfg.nodes nd hnd] at hlh
    simp at hlh
  have hstep : ∀ (layers : List Layer) (acc : List NodeHealthData),
      ProbeConsistent probes acc →
      ProbeConsistent probes (layers.foldl
        (fun acc layer =>
          (cfg.nodes.map (fun n => checkNodeHealth n.ip layer (probes layer n.ip))).foldl
            pushLayerHealth acc) acc) := by
    intro layers
    induction layers with
    | nil => intro acc hacc; exact hacc
    | cons layer rest ih =>
      intro acc hacc
      refine ih _ (probeConsistent_foldl probes _ acc hacc ?_)
      intro h hh
      rcases List.mem_map.mp hh with ⟨n, _, hn⟩
      rw [← hn]
      rfl
  exact hstep [Layer.gl0, Layer.ml0, Layer.cl1, Layer.dl1] (initNodeMap cfg.nodes) hinit

/-- C9: `getHealthSnapshot` is total — every cache failure mode degrades to
the direct polling strategy instead of propagating; the snapshot carries the
cache source iff the cached record was read, parsed, and its embedded
timestamp is younger than the staleness threshold; under direct polling the
snapshot is tagged direct and every layer entry records exactly whether its
status probe succeeded, so an unreachable node yields `reachable = false`
instead of failing the acquisition. -/
theorem getHealthSnapshot_spec (cfg : Config) (cache : CacheRead) (now : Int)
    (probes : Layer → String → DirectProbe) :
    ((getHealthSnapshot cfg cache now probes).source = Source.redis
      ↔ ∃ p, cache = CacheRead.ok p
          ∧ Rat.divInt (now - p.timestamp) 1000 < cfg.healthDataStaleSeconds)
    ∧ (∀ p, cache = CacheRead.ok p →
        Rat.divInt (now - p.timestamp) 1000 < cfg.healthDataStaleSeconds →
        getHealthSnapshot cfg cache now probes =
          { timestamp := p.timestamp, nodes := transformRedisNodes p.nodes
            stale := false, source := Source.redis })
    ∧ ((∀ p, cache = CacheRead.ok p →
          ¬ Rat.divInt (now - p.timestamp) 1000 < cfg.healthDataStaleSeconds) →
        getHealthSnapshot cfg cache now probes = pollDirectly cfg now probes)
    ∧ (pollDirectly cfg now probes).source = Source.direct
    ∧ (∀ nd ∈ (pollDirectly cfg now probes).nodes, ∀ lh ∈ nd.layers,
        (probes lh.layer nd.ip).info = Option.none → lh.reachable = false) := by
  refine ⟨?_, ?_, ?_, rfl, ?_⟩
  · cases cache with
    | ok p =>
      by_cases hfresh : Rat.divInt (now - p.timestamp) 1000 < cfg.healthDataStaleSeconds
      · simp [getHealthSnapshot, hfresh]
      · simp [getHealthSnapshot, hfresh, pollDirectly]
    | backendDown => simp [getHealthSnapshot, pollDirectly]
    | readFail => simp [getHealthSnapshot, pollDirectly]
    | missing => simp [getHealthSnapshot, pollDirectly]
    | unparseable => simp [getHealthSnapshot, pollDirectly]
  · intro p hp hfresh
    subst hp
    simp [getHealthSnapshot, hfresh]
  · intro hstale
    cases cache with
    | ok p => simp [getHealthSnapshot, hstale p rfl]
    | backendDown => rfl
    | readFail => rfl
    | missing => rfl
    | unparseable => rfl
  · intro nd hnd lh hlh hprobe
    have := pollDirectly_reachable cfg now probes nd hnd lh hlh
    rw [this, hprobe]
    rfl

/-- Witness for C9: the cache key is missing and every probe fails — the
reader degrades to a direct snapshot in which the first node's gl0 entry is
recorded unreachable. -/
theorem getHealthSnapshot_spec_witness :
    getHealthSnapshot cfg3 CacheRead.missing 0 (fun _ _ => ⟨Option.none, [], -1⟩) =
      pollDirectly cfg3 0 (fun _ _ => ⟨Option.none, [], -1⟩)
    ∧ (getHealthSnapshot cfg3 CacheRead.missing 0
        (fun _ _ => ⟨Option.none, [], -1⟩)).source = Source.direct := by
  have h := getHealthSnapshot_spec cfg3 CacheRead.missing 0
    (fun _ _ => ⟨Option.none, [], -1⟩)
  have heq := h.2.2.1 (fun p hp => CacheRead.noConfusion hp)
  exact ⟨heq, by rw [heq]; exact h.2.2.2.1⟩

/-! ### Claim C4 — findMajority: voting, majority, tie-break -/

theorem mem_jsDedupAux (l seen : List String) (a : String) :
    a ∈ jsDedupAux l seen ↔ a ∈ l ∧ a ∉ seen := by
  induction l generalizing seen with
  | nil => simp [jsDedupAux]
  | cons x xs ih =>
    by_cases hx : x ∈ seen
    · rw [jsDedupAux, if_pos hx, ih]
      constructor
      · rintro ⟨h1, h2⟩
        exact ⟨List.mem_cons_of_mem x h1, h2⟩
      · rintro ⟨h1, h2⟩
        rcases List.mem_cons.mp h1 with rfl | h1
        · exact absurd hx h2
        · exact ⟨h1, h2⟩
    · rw [jsDedupAux, if_neg hx]
      constructor
      · intro h
        rcases List.mem_cons.mp h with rfl | h
        · exact ⟨List.mem_cons_self a xs, hx⟩
        · rcases (ih (x :: seen)).mp h with ⟨h1, h2⟩
          refine ⟨List.mem_cons_of_mem x h1, fun hs => h2 (List.mem_cons_of_mem x hs)⟩
      · rintro ⟨h1, h2⟩
        rcases List.mem_cons.mp h1 with rfl | h1
        · exact List.mem_cons_self a _
        · by_cases hax : a = x
          · subst hax
            exact List.mem_cons_self a _
          · exact List.mem_cons_of_mem x ((ih (x :: seen)).mpr
              ⟨h1, fun hs => by
                rcases List.mem_cons.mp hs with h | h
                · exact hax h
                · exact h2 h⟩)

theorem mem_jsDedup (l : List String) (a : String) : a ∈ jsDedup l ↔ a ∈ l := by
  rw [jsDedup, mem_jsDedupAux]
  simp

theorem find?_jsDedupAux (p : String → Bool) (l seen : List String)
    (hseen : ∀ s ∈ seen, p s = false) :
    (jsDedupAux l seen).find? p = l.find? p := by
  induction l generalizing seen with
  | nil => rfl
  | cons x xs ih =>
    by_cases hx : x ∈ seen
    · rw [jsDedupAux, if_pos hx, ih seen hseen, List.find?_cons, hseen x hx]
    · rw [jsDedupAux, if_neg hx]
      rcases hpx : p x with _ | _
      · rw [List.find?_cons, hpx, List.find?_cons, hpx]
        refine ih (x :: seen) ?_
        intro s hs
        rcases List.mem_cons.mp hs with rfl | hs
        · exact hpx
        · exact hseen s hs
      · rw [List.find?_cons, hpx, List.find?_cons, hpx]

theorem find?_jsDedup (p : String → Bool) (l : List String) :
    (jsDedup l).find? p = l.find? p :=
  find?_jsDedupAux p l [] (by simp)

theorem mem_insertByVal (s a : String) (l : List String) :
    a ∈ insertByVal s l ↔ a = s ∨ a ∈ l := by
  induction l with
  | nil => simp [insertByVal]
  | cons x xs ih =>
    rw [insertByVal]
    by_cases h : keyVal s < keyVal x
    · simp [h]
    · simp only [h, if_false, List.mem_cons, ih]
      tauto

theorem mem_sortIndexKeys (l : List String) (a : String) :
    a ∈ sortIndexKeys l ↔ a ∈ l := by
  induction l with
  | nil => simp [sortIndexKeys]
  | cons x xs ih =>
    rw [sortIndexKeys, List.foldr_cons, mem_insertByVal]
    rw [sortIndexKeys] at ih
    rw [ih]
    simp [eq_comm]

theorem mem_jsObjectKeys (keys : List String) (a : String) :
    a ∈ jsObjectKeys keys ↔ a ∈ keys := by
  rw [jsObjectKeys, List.mem_append, mem_sortIndexKeys]
  constructor
  · rintro (h | h)
    · exact (List.mem_filter.mp h).1
    · exact (List.mem_filter.mp h).1
  · intro h
    by_cases hidx : isArrayIndexKey a
    · exact Or.inl (List.mem_filter.mpr ⟨h, hidx⟩)
    · exact Or.inr (List.mem_filter.mpr ⟨h, by simpa using hidx⟩)

theorem jsObjectKeys_of_no_index (keys : List String)
    (h : ∀ k ∈ keys, isArrayIndexKey k = false) : jsObjectKeys keys = keys := by
  rw [jsObjectKeys]
  have h1 : keys.filter (fun k => isArrayIndexKey k) = [] := by
    rw [List.filter_eq_nil_iff]
    intro k hk
    simp [h k hk]
  have h2 : keys.filter (fun k => !isArrayIndexKey k) = keys := by
    rw [List.filter_eq_self]
    intro k hk
    simp [h k hk]
  rw [h1, h2]
  rfl

theorem firstMaxEntry_eq_none (l : List (String × Nat)) :
    firstMaxEntry l = Option.none ↔ l = [] := by
  cases l with
  | nil => simp [firstMaxEntry]
  | cons e es =>
    simp only [firstMaxEntry]
    rcases firstMaxEntry es with _ | b <;> simp

theorem firstMaxEntry_mem (l : List (String × Nat)) (e : String × Nat)
    (h : firstMaxEntry l = some e) : e ∈ l := by
  induction l generalizing e with
  | nil => simp [firstMaxEntry] at h
  | cons x xs ih =>
    rw [firstMaxEntry] at h
    rcases hx : firstMaxEntry xs with _ | b
    · rw [hx] at h
      simp at h
      simp [h]
    · rw [hx] at h
      simp at h
      by_cases hgt : b.2 > x.2
      · rw [if_pos hgt] at h
        exact List.mem_cons_of_mem x (h ▸ ih b hx)
      · rw [if_neg hgt] at h
        simp [← h]

theorem firstMaxEntry_max (l : List (String × Nat)) (e : String × Nat)
    (h : firstMaxEntry l = some e) : ∀ x ∈ l, x.2 ≤ e.2 := by
  induction l generalizing e with
  | nil => simp
  | cons x xs ih =>
    rw [firstMaxEntry] at h
    rcases hx : firstMaxEntry xs with _ | b
    · rw [hx] at h
      simp at h
      rw [firstMaxEntry_eq_none] at hx
      subst hx
      simp [← h]
    · rw [hx] at h
      simp at h
      intro y hy
      rcases List.mem_cons.mp hy with rfl | hy
      · by_cases hgt : b.2 > y.2
        · rw [if_pos hgt] at h
          exact le_of_lt (h ▸ hgt)
        · rw [if_neg hgt] at h
          simp [← h]
      · have hb := ih b hx y hy
        by_cases hgt : b.2 > x.2
        · rw [if_pos hgt] at h
          exact h ▸ hb
        · rw [if_neg hgt] at h
          rw [← h]
          exact le_trans hb (le_of_not_gt hgt)

theorem firstMaxEntry_find (c : String → Nat) (ks : List String) (e : String × Nat)
    (h : firstMaxEntry (ks.map (fun h => (h, c h))) = some e) :
    ks.find? (fun h => c h == e.2) = some e.1 ∧ c e.1 = e.2 := by
  induction ks generalizing e with
  | nil => simp [firstMaxEntry] at h
  | cons x xs ih =>
    rw [List.map_cons, firstMaxEntry] at h
    rcases hx : firstMaxEntry (xs.map (fun h => (h, c h))) with _ | b
    · rw [hx] at h
      simp at h
      rw [firstMaxEntry_eq_none, List.map_eq_nil_iff] at hx
      subst hx
      rw [← h]
      simp [List.find?_cons]
    · rw [hx] at h
      simp at h
      rcases ih b hx with ⟨ihf, ihc⟩
      by_cases hgt : b.2 > c x
      · rw [if_pos hgt] at h
        subst h
        have hne : (c x == b.2) = false := by
          simp
          omega
        rw [List.find?_cons, hne]
        exact ⟨ihf, ihc⟩
      · rw [if_neg hgt] at h
        subst h
        rw [List.find?_cons]
        simp

theorem majorityHashOf_spec (voting : List NodePOV) (hne : voting ≠ []) :
    (∃ p ∈ voting, p.hash = majorityHashOf voting)
    ∧ (∀ p ∈ voting, countHash voting p.hash ≤
        countHash voting (majorityHashOf voting)) := by
  have hkeys : ∀ a, a ∈ jsObjectKeys (jsDedup (voting.map (fun p => p.hash)))
      ↔ ∃ p ∈ voting, p.hash = a := by
    intro a
    rw [mem_jsObjectKeys, mem_jsDedup, List.mem_map]
  have hkne : jsObjectKeys (jsDedup (voting.map (fun p => p.hash))) ≠ [] := by
    rcases voting with _ | ⟨p, rest⟩
    · exact absurd rfl hne
    · intro hempty
      have := (hkeys p.hash).mpr ⟨p, by simp, rfl⟩
      rw [hempty] at this
      simp at this
  have hene : freqEntries voting ≠ [] := by
    rw [freqEntries]
    simpa using hkne
  rcases he : firstMaxEntry (freqEntries voting) with _ | e
  · rw [firstMaxEntry_eq_none] at he
    exact absurd he hene
  have hmem := firstMaxEntry_mem _ _ he
  rw [freqEntries, List.mem_map] at hmem
  rcases hmem with ⟨h0, hh0, hee⟩
  have hmaj : majorityHashOf voting = e.1 := by
    rw [majorityHashOf, he]
  constructor
  · rcases (hkeys h0).mp hh0 with ⟨p, hp, hph⟩
    refine ⟨p, hp, ?_⟩
    rw [hph, hmaj, ← hee]
  · intro p hp
    have hpk : p.hash ∈ jsObjectKeys (jsDedup (voting.map (fun q => q.hash))) :=
      (hkeys p.hash).mpr ⟨p, hp, rfl⟩
    have hpe : (p.hash, countHash voting p.hash) ∈ freqEntries voting := by
      rw [freqEntries, List.mem_map]
      exact ⟨p.hash, hpk, rfl⟩
    have := firstMaxEntry_max _ _ he _ hpe
    rw [hmaj, ← hee] at *
    simpa using this

theorem majorityHashOf_tiebreak (voting : List NodePOV) (hne : voting ≠ [])
    (hnoidx : ∀ p ∈ voting, isArrayIndexKey p.hash = false) :
    ∃ q, voting.find? (fun p => countHash voting p.hash ==
        countHash voting (majorityHashOf voting)) = some q
      ∧ q.hash = majorityHashOf voting := by
  have hkeysidx : ∀ k ∈ jsDedup (voting.map (fun p => p.hash)),
      isArrayIndexKey k = false := by
    intro k hk
    rw [mem_jsDedup, List.mem_map] at hk
    rcases hk with ⟨p, hp, rfl⟩
    exact hnoidx p hp
  have hentries : freqEntries voting =
      (jsDedup (voting.map (fun p => p.hash))).map
        (fun h => (h, countHash voting h)) := by
    rw [freqEntries, jsObjectKeys_of_no_index _ hkeysidx]
  have hkne : jsDedup (voting.map (fun p => p.hash)) ≠ [] := by
    rcases voting with _ | ⟨p, rest⟩
    · exact absurd rfl hne
    · intro hempty
      have hmem : p.hash ∈ jsDedup ((p :: rest).map (fun q => q.hash)) := by
        rw [mem_jsDedup]
        simp
      rw [hempty] at hmem
      simp at hmem
  have hene : freqEntries voting ≠ [] := by
    rw [hentries]
    simpa using hkne
  rcases he : firstMaxEntry (freqEntries voting) with _ | e
  · rw [firstMaxEntry_eq_none] at he
    exact absurd he hene
  have hmaj : majorityHashOf voting = e.1 := by
    rw [majorityHashOf, he]
  have hfind := firstMaxEntry_find (countHash voting)
    (jsDedup (voting.map (fun p => p.hash))) e (by rw [← hentries]; exact he)
  rcases hfind with ⟨hf, hc⟩
  rw [find?_jsDedup, List.find?_map] at hf
  rcases hmap : voting.find?
      ((fun h => countHash voting h == e.2) ∘ (fun p => p.hash)) with _ | q
  · rw [hmap] at hf
    simp at hf
  · rw [hmap] at hf
    simp at hf
    refine ⟨q, ?_, ?_⟩
    · rw [hmaj, hc, ← hmap]
      rfl
    · rw [hmaj, hf]

theorem findMajority_unreachable (povs : List NodePOV) :
    (findMajority povs).unreachable = unreachableIps povs := by
  by_cases hv : (votingPovs povs).isEmpty <;> simp [findMajority, hv]

theorem findMajority_eq_of_voting (povs : List NodePOV)
    (h : votingPovs povs ≠ []) :
    findMajority povs =
      { majorityHash := majorityHashOf (votingPovs povs)
        majorityNodes := ((votingPovs povs).filter
          (fun p => p.hash = majorityHashOf (votingPovs povs))).map (fun p => p.ip)
        minorityNodes := ((votingPovs povs).filter
          (fun p => p.hash ≠ majorityHashOf (votingPovs povs))).map (fun p => p.ip)
        unreachable := unreachableIps povs } := by
  have hie : (votingPovs povs).isEmpty = false := by
    simpa [List.isEmpty_iff] using h
  simp [findMajority, hie]

/-- Counterexample to C4 at
`povs = [{ip a, hash "2", error ""}, {ip b, hash "1"}]`: the first node
carries an error (the empty string, which the source's truthiness test
ignores), yet it lands in `minorityNodes` and not in `unreachable`; and
although the digest "2" is encountered first, the tie is won by "1", because
both digests are array-index-like object keys which JavaScript enumerates in
ascending numeric order before insertion order applies. -/
theorem findMajority_cx :
    findMajority [⟨"a", "2", true, some ""⟩, ⟨"b", "1", true, Option.none⟩] =
      { majorityHash := "1", majorityNodes := ["b"], minorityNodes := ["a"]
        unreachable := [] }
    ∧ (⟨"a", "2", true, some ""⟩ : NodePOV).error ≠ Option.none
    ∧ "a" ∉ (findMajority [⟨"a", "2", true, some ""⟩,
        ⟨"b", "1", true, Option.none⟩]).unreachable
    ∧ (findMajority [⟨"a", "2", true, some ""⟩,
        ⟨"b", "1", true, Option.none⟩]).majorityHash ≠ "2" := by
  refine ⟨by decide, by decide, by decide, by decide⟩

/-- C4 (amended): nodes that are unreachable or carry a non-empty error are
exactly the ones reported `unreachable`, and `minorityNodes` only ever holds
voting nodes; the majority digest has maximal frequency among voting nodes
and the minority is exactly the voting nodes with a different digest; on
frequency ties the winner is the first key of the frequency table in
JavaScript property order — in particular, when no digest is an
array-index-like string, the first-encountered digest with maximal frequency
wins; and when the voting nodes split over exactly two digests, exactly one
of the two groups is returned as the (non-empty) minority. -/
theorem findMajority_spec (povs : List NodePOV) :
    (∀ p ∈ povs, (p.reachable = false ∨ jsTruthy p.error = true) →
        p.ip ∈ (findMajority povs).unreachable)
    ∧ (findMajority povs).minorityNodes =
        ((votingPovs povs).filter
          (fun p => p.hash ≠ (findMajority povs).majorityHash)).map (fun p => p.ip)
    ∧ (∀ ip ∈ (findMajority povs).minorityNodes, ∃ p, p ∈ votingPovs povs
        ∧ p.ip = ip ∧ p.hash ≠ (findMajority povs).majorityHash)
    ∧ (∀ p ∈ votingPovs povs, countHash (votingPovs povs) p.hash ≤
        countHash (votingPovs povs) (findMajority povs).majorityHash)
    ∧ (votingPovs povs ≠ [] →
        (∀ p ∈ votingPovs povs, isArrayIndexKey p.hash = false) →
        ∃ q, (votingPovs povs).find? (fun p => countHash (votingPovs povs) p.hash ==
            countHash (votingPovs povs) (findMajority povs).majorityHash) = some q
          ∧ q.hash = (findMajority povs).majorityHash)
    ∧ (∀ h1 h2 : String, h1 ≠ h2 →
        (∀ p ∈ votingPovs povs, p.hash = h1 ∨ p.hash = h2) →
        (∃ p ∈ votingPovs povs, p.hash = h1) →
        (∃ p ∈ votingPovs povs, p.hash = h2) →
        ((findMajority povs).majorityHash = h1
          ∧ (findMajority povs).minorityNodes =
              ((votingPovs povs).filter (fun p => p.hash = h2)).map (fun p => p.ip)
          ∧ (findMajority povs).minorityNodes ≠ [])
        ∨ ((findMajority povs).majorityHash = h2
          ∧ (findMajority povs).minorityNodes =
              ((votingPovs povs).filter (fun p => p.hash = h1)).map (fun p => p.ip)
          ∧ (findMajority povs).minorityNodes ≠ [])) := by
  have hA : ∀ p ∈ povs, (p.reachable = false ∨ jsTruthy p.error = true) →
      p.ip ∈ (findMajority povs).unreachable := by
    intro p hp hbad
    rw [findMajority_unreachable, unreachableIps]
    refine List.mem_map.mpr ⟨p, List.mem_filter.mpr ⟨hp, ?_⟩, rfl⟩
    rcases hbad with h | h <;> simp [h]
  by_cases hv : votingPovs povs = []
  · have hmaj : findMajority povs =
        { majorityHash := "", majorityNodes := [], minorityNodes := []
          unreachable := unreachableIps povs } := by
      have hie : (votingPovs povs).isEmpty = true := by
        simpa [List.isEmpty_iff] using hv
      simp [findMajority, hie]
    refine ⟨hA, ?_, ?_, ?_, ?_, ?_⟩
    · rw [hmaj, hv]
      rfl
    · rw [hmaj]
      intro ip hip
      simp at hip
    · rw [hv]
      intro p hp
      simp at hp
    · intro h
      exact absurd hv h
    · intro h1 h2 _ _ hex1 _
      rcases hex1 with ⟨p, hp, _⟩
      rw [hv] at hp
      simp at hp
  · have hrec := findMajority_eq_of_voting povs hv
    have hC : (findMajority povs).minorityNodes =
        ((votingPovs povs).filter
          (fun p => p.hash ≠ (findMajority povs).majorityHash)).map (fun p => p.ip) := by
      rw [hrec]
    have hspec := majorityHashOf_spec (votingPovs povs) hv
    refine ⟨hA, hC, ?_, ?_, ?_, ?_⟩
    · intro ip hip
      rw [hC] at hip
      rcases List.mem_map.mp hip with ⟨p, hp, rfl⟩
      rcases List.mem_filter.mp hp with ⟨hpv, hph⟩
      exact ⟨p, hpv, rfl, by simpa using hph⟩
    · intro p hp
      have := hspec.2 p hp
      rw [hrec]
      exact this
    · intro _ hnoidx
      have := majorityHashOf_tiebreak (votingPovs povs) hv hnoidx
      rw [hrec]
      exact this
    · intro h1 h2 h12 hall hex1 hex2
      have hmem := hspec.1
      rcases hmem with ⟨p0, hp0, hp0h⟩
      have hmh : (findMajority povs).majorityHash = majorityHashOf (votingPovs povs) := by
        rw [hrec]
      rcases hall p0 hp0 with hcase | hcase
      · left
        have hmaj1 : (findMajority povs).majorityHash = h1 := by
          rw [hmh, ← hp0h, hcase]
        refine ⟨hmaj1, ?_, ?_⟩
        · rw [hC, hmaj1]
          congr 1
          refine List.filter_congr ?_
          intro q hq
          rcases hall q hq with hq1 | hq2
          · simp [hq1, h12]
          · simp [hq2, Ne.symm h12]
        · rcases hex2 with ⟨q, hq, hqh⟩
          rw [hC, hmaj1]
          have hqf : q ∈ (votingPovs povs).filter (fun p => p.hash ≠ h1) :=
            List.mem_filter.mpr ⟨hq, by simp [hqh, Ne.symm h12]⟩
          exact List.ne_nil_of_mem (List.mem_map.mpr ⟨q, hqf, rfl⟩)
      · right
        have hmaj2 : (findMajority povs).majorityHash = h2 := by
          rw [hmh, ← hp0h, hcase]
        refine ⟨hmaj2, ?_, ?_⟩
        · rw [hC, hmaj2]
          congr 1
          refine List.filter_congr ?_
          intro q hq
          rcases hall q hq with hq1 | hq2
          · simp [hq1, h12]
          · simp [hq2, Ne.symm h12]
        · rcases hex1 with ⟨q, hq, hqh⟩
          rw [hC, hmaj2]
          have hqf : q ∈ (votingPovs povs).filter (fun p => p.hash ≠ h2) :=
            List.mem_filter.mpr ⟨hq, by simp [hqh, h12]⟩
          exact List.ne_nil_of_mem (List.mem_map.mpr ⟨q, hqf, rfl⟩)

/-- Witness for C4 (amended): two voting nodes with distinct non-index
digests "h1" and "h2" — exactly one group is the minority, and the
first-encountered digest "h1" is the majority. -/
theorem findMajority_spec_witness :
    (findMajority [⟨"a", "h1", true, Option.none⟩,
        ⟨"b", "h2", true, Option.none⟩]).majorityHash = "h1"
    ∧ (findMajority [⟨"a", "h1", true, Option.none⟩,
        ⟨"b", "h2", true, Option.none⟩]).minorityNodes = ["b"] := by
  have h := (findMajority_spec [⟨"a", "h1", true, Option.none⟩,
    ⟨"b", "h2", true, Option.none⟩]).2.2.2.2.2 "h1" "h2" (by decide)
    (by decide)
    ⟨⟨"a", "h1", true, Option.none⟩, by decide, rfl⟩
    ⟨⟨"b", "h2", true, Option.none⟩, by decide, rfl⟩
  rcases h with ⟨hm, hmin, _⟩ | ⟨hm, _, _⟩
  · exact ⟨hm, by rw [hmin]; decide⟩
  · exact absurd hm (by decide)

end Watchdog
